import Mathlib

/-!
Verification development for the RWIS real-time motion-scoring pipeline.

The embedding models:
  * Python/NumPy float values as `PyFloat` (an exact rational payload plus
    explicit infinities and NaN; float32 rounding and overflow of large finite
    values are abstracted away as exact rational arithmetic),
  * computed scores as real numbers (`ℝ`),
  * JSON values as the inductive `Json` (numbers carry a `PyFloat`, so the
    non-standard `Infinity`/`NaN` tokens accepted by `json.loads` are
    representable),
  * Python exceptions as `Except String`; raise sites carry the (non-empty)
    message text of the exception the source would raise.

Sources embedded: `receiver.py` (protocol decoder), `utils.py`,
`pose_score.py`, `rhythm_score.py`, `dtw_online.py`, `mocopi_adapter.py`,
`config.py` and `main.py`.
-/

set_option maxHeartbeats 1600000
set_option maxRecDepth 40000

/-- Model of a Python/NumPy floating point value: an exact rational for finite
values, plus the two infinities and NaN.  `np.isfinite` is `isFinite`. -/
inductive PyFloat where
  | finite (q : ℚ)
  | posInf
  | negInf
  | nan
deriving DecidableEq

/-- `np.isfinite` on a single value. -/
def PyFloat.isFinite : PyFloat → Bool
  | .finite _ => true
  | _ => false

/-- Real value of a finite `PyFloat`; non-finite values map to the junk value
`0` (only used where the source guarantees finiteness by a prior
`np.isfinite` check, or where no claim inspects the resulting number). -/
noncomputable def PyFloat.toR : PyFloat → ℝ
  | .finite q => (q : ℝ)
  | _ => 0

/-- Negation of a float (used for the quaternion double-cover property). -/
def PyFloat.negF : PyFloat → PyFloat
  | .finite q => .finite (-q)
  | .posInf => .negInf
  | .negInf => .posInf
  | .nan => .nan

/-- `np.clip(x, lo, hi)` on reals: `minimum(maximum(x, lo), hi)`. -/
noncomputable def npClip (x lo hi : ℝ) : ℝ := min (max x lo) hi

/- ============================================================
   receiver.py : bone table and binary protocol decoder
   ============================================================ -/

/-- `BONE_NAMES` from receiver.py: the fixed bone-id to name table. -/
def BONE_NAMES : List String :=
  ["root", "torso_1", "torso_2", "torso_3", "torso_4", "torso_5", "torso_6", "torso_7",
   "neck_1", "neck_2", "head",
   "l_shoulder", "l_up_arm", "l_low_arm", "l_hand",
   "r_shoulder", "r_up_arm", "r_low_arm", "r_hand",
   "l_up_leg", "l_low_leg", "l_foot", "l_toes",
   "r_up_leg", "r_low_leg", "r_foot", "r_toes"]

/-- `bone_name` from receiver.py.  Python ints are modelled as `ℤ` so that
negative ids are representable; out-of-range ids synthesize `bone_{id}`. -/
def bone_name (bone_id : ℤ) : String :=
  if 0 ≤ bone_id ∧ bone_id < (BONE_NAMES.length : ℤ) then
    BONE_NAMES.getD bone_id.toNat ""
  else "bone_" ++ toString bone_id

/-- A byte buffer is a list of byte values (each `< 256` for real packets). -/
abbrev Bytes := List ℕ

/-- Little-endian `u32` at `off` (struct.unpack_from with format the
little-endian unsigned 32-bit integer). -/
def u32le (buf : Bytes) (off : ℕ) : ℕ :=
  buf.getD off 0 + 256 * buf.getD (off + 1) 0 + 65536 * buf.getD (off + 2) 0 +
    16777216 * buf.getD (off + 3) 0

/-- Little-endian `u16` at `off`. -/
def u16le (buf : Bytes) (off : ℕ) : ℕ :=
  buf.getD off 0 + 256 * buf.getD (off + 1) 0

/-- Little-endian `u64` at `off`. -/
def u64le (buf : Bytes) (off : ℕ) : ℕ :=
  u32le buf off + 4294967296 * u32le buf (off + 4)

/-- One hex digit character (lowercase), for `bytes.hex()`. -/
def hexDigit (n : ℕ) : Char :=
  if n < 10 then Char.ofNat (48 + n) else Char.ofNat (87 + n % 16)

/-- `bytes.hex()` of one byte. -/
def byteHex (b : ℕ) : String := String.mk [hexDigit (b / 16 % 16), hexDigit (b % 16)]

/-- The tag decode of receiver.py: ASCII decode of the 4 tag bytes, falling
back to the hex spelling when a byte is not ASCII (the UnicodeDecodeError
branch). -/
def decodeTag (bs : Bytes) : String :=
  if bs.all (· < 128) then String.mk (bs.map Char.ofNat)
  else String.join (bs.map byteHex)

/-- `read_box` from receiver.py.
Box = u32 little-endian length, 4 tag bytes, payload of that length.
Returns (tag, payload, new offset); errors model the raised ValueErrors. -/
def read_box (buf : Bytes) (offset : ℕ) : Except String (String × Bytes × ℕ) :=
  if offset + 8 > buf.length then .error "Truncated box header"
  else
    let length := u32le buf offset
    let tag := decodeTag ((buf.drop (offset + 4)).take 4)
    if offset + 8 + length > buf.length then
      .error ("Truncated payload for tag=" ++ tag)
    else .ok (tag, (buf.drop (offset + 8)).take length, offset + 8 + length)

/-- The while-loop of `iter_boxes`, with explicit fuel.  Each successful
`read_box` advances the offset by at least 8, so `buf.length + 1` fuel is
never exhausted; the fuel-0 error branch is unreachable from `iter_boxes`. -/
def iterBoxesAux (buf : Bytes) : ℕ → ℕ → Except String (List (String × Bytes))
  | 0, off => if off < buf.length then .error "Truncated box header" else .ok []
  | fuel + 1, off =>
    if off < buf.length then
      match read_box buf off with
      | .error e => .error e
      | .ok (tag, data, off') =>
        match iterBoxesAux buf fuel off' with
        | .error e => .error e
        | .ok rest => .ok ((tag, data) :: rest)
    else .ok []

/-- `iter_boxes` from receiver.py: split a payload into its sequence of
(tag, payload) boxes. -/
def iter_boxes (payload : Bytes) : Except String (List (String × Bytes)) :=
  iterBoxesAux payload (payload.length + 1) 0

/-- IEEE-754 binary32 decode of a 32-bit pattern, exact over `ℚ`
(struct.unpack of a little-endian float32). -/
def f32FromBits (n : ℕ) : PyFloat :=
  let sign : ℕ := n / 2 ^ 31 % 2
  let e : ℕ := n / 2 ^ 23 % 256
  let m : ℕ := n % 2 ^ 23
  if e = 255 then
    if m = 0 then (if sign = 1 then .negInf else .posInf) else .nan
  else
    let mag : ℚ :=
      if e = 0 then (m : ℚ) / ((2 : ℚ) ^ (23 : ℕ)) * (2 : ℚ) ^ (-126 : ℤ)
      else (1 + (m : ℚ) / ((2 : ℚ) ^ (23 : ℕ))) * (2 : ℚ) ^ ((e : ℤ) - 127)
    .finite (if sign = 1 then -mag else mag)

/-- Little-endian float32 at `off`. -/
def f32le (buf : Bytes) (off : ℕ) : PyFloat := f32FromBits (u32le buf off)

/-- `Transform` from receiver.py. -/
structure Transform where
  rot_xyzw : PyFloat × PyFloat × PyFloat × PyFloat
  pos_xyz : PyFloat × PyFloat × PyFloat
deriving DecidableEq

/-- `SkeletonBone` from receiver.py. -/
structure SkeletonBone where
  bone_id : ℕ
  parent_id : ℕ
  rest : Option Transform
deriving DecidableEq

/-- `FrameBone` from receiver.py. -/
structure FrameBone where
  bone_id : ℕ
  trans : Transform
deriving DecidableEq

/-- `Frame` from receiver.py. -/
structure Frame where
  fnum : ℕ
  time : ℕ
  bones : List FrameBone
deriving DecidableEq

/-- `parse_tran_payload` from receiver.py: 7 little-endian float32 values
(quaternion x,y,z,w then position x,y,z); fewer than 28 bytes is an error. -/
def parse_tran_payload (payload : Bytes) : Except String Transform :=
  if payload.length < 28 then .error "tran payload too short"
  else
    .ok { rot_xyzw := (f32le payload 0, f32le payload 4, f32le payload 8, f32le payload 12),
          pos_xyz := (f32le payload 16, f32le payload 20, f32le payload 24) }

/-- Values stored in the dictionaries produced by `parse_head`/`parse_info`.
The utf-8 decode with replacement of `ftyp` is abstracted: ASCII bytes decode
directly, any other byte becomes the replacement character. -/
inductive BoxVal where
  | str (s : String)
  | byte (b : Option ℕ)
  | u64 (n : ℕ)
  | u16 (n : ℕ)
  | raw (bs : Bytes)
deriving DecidableEq

/-- Abstraction of `bytes.decode("utf-8", errors="replace")`. -/
def utf8Replace (bs : Bytes) : String :=
  String.mk (bs.map fun b => if b < 128 then Char.ofNat b else Char.ofNat 0xFFFD)

/-- `parse_head` from receiver.py. -/
def parse_head (payload : Bytes) : Except String (List (String × BoxVal)) :=
  match iter_boxes payload with
  | .error e => .error e
  | .ok boxes =>
    .ok (boxes.map fun td =>
      if td.1 = "ftyp" then ("ftyp", .str (utf8Replace td.2))
      else if td.1 = "vrsn" then ("vrsn", .byte td.2.head?)
      else (td.1, .raw td.2))

/-- `parse_info` from receiver.py. -/
def parse_info (payload : Bytes) : Except String (List (String × BoxVal)) :=
  match iter_boxes payload with
  | .error e => .error e
  | .ok boxes =>
    .ok (boxes.map fun td =>
      if td.1 = "ipad" ∧ 8 ≤ td.2.length then ("ipad_raw_u64", .u64 (u64le td.2 0))
      else if td.1 = "rcvp" ∧ 2 ≤ td.2.length then ("rcvp", .u16 (u16le td.2 0))
      else (td.1, .raw td.2))

/-- The loop body of `parse_bndt`: fold over the sub-boxes tracking the
optional `bnid`, `pbid` and `tran` fields (later boxes overwrite earlier). -/
def bndtFold : List (String × Bytes) → Option ℕ → Option ℕ → Option Transform →
    Except String (Option ℕ × Option ℕ × Option Transform)
  | [], b, p, r => .ok (b, p, r)
  | (tag, data) :: rest, b, p, r =>
    if tag = "bnid" ∧ 2 ≤ data.length then bndtFold rest (some (u16le data 0)) p r
    else if tag = "pbid" ∧ 2 ≤ data.length then bndtFold rest b (some (u16le data 0)) r
    else if tag = "tran" then
      match parse_tran_payload data with
      | .error e => .error e
      | .ok t => bndtFold rest b p (some t)
    else bndtFold rest b p r

/-- `parse_bndt` from receiver.py: missing `bnid`/`pbid` is a decode error. -/
def parse_bndt (payload : Bytes) : Except String SkeletonBone :=
  match iter_boxes payload with
  | .error e => .error e
  | .ok boxes =>
    match bndtFold boxes none none none with
    | .error e => .error e
    | .ok (some b, some p, r) => .ok ⟨b, p, r⟩
    | .ok _ => .error "bndt missing bnid/pbid"

/-- Inner loop of `parse_skdf`: parse every `bndt` box inside a `bons` box. -/
def skdfBons : List (String × Bytes) → Except String (List SkeletonBone)
  | [] => .ok []
  | (tag, data) :: rest =>
    if tag = "bndt" then
      match parse_bndt data with
      | .error e => .error e
      | .ok b =>
        match skdfBons rest with
        | .error e => .error e
        | .ok bs => .ok (b :: bs)
    else skdfBons rest

/-- Outer loop of `parse_skdf` over the top-level boxes of the payload. -/
def skdfTop : List (String × Bytes) → Except String (List SkeletonBone)
  | [] => .ok []
  | (tag, data) :: rest =>
    if tag = "bons" then
      match iter_boxes data with
      | .error e => .error e
      | .ok inner =>
        match skdfBons inner with
        | .error e => .error e
        | .ok bs =>
          match skdfTop rest with
          | .error e => .error e
          | .ok bs' => .ok (bs ++ bs')
    else skdfTop rest

/-- `parse_skdf` from receiver.py. -/
def parse_skdf (payload : Bytes) : Except String (List SkeletonBone) :=
  match iter_boxes payload with
  | .error e => .error e
  | .ok boxes => skdfTop boxes

/-- Loop body of `parse_btdt`. -/
def btdtFold : List (String × Bytes) → Option ℕ → Option Transform →
    Except String (Option ℕ × Option Transform)
  | [], b, t => .ok (b, t)
  | (tag, data) :: rest, b, t =>
    if tag = "bnid" ∧ 2 ≤ data.length then btdtFold rest (some (u16le data 0)) t
    else if tag = "tran" then
      match parse_tran_payload data with
      | .error e => .error e
      | .ok tr => btdtFold rest b (some tr)
    else btdtFold rest b t

/-- `parse_btdt` from receiver.py: missing `bnid`/`tran` is a decode error. -/
def parse_btdt (payload : Bytes) : Except String FrameBone :=
  match iter_boxes payload with
  | .error e => .error e
  | .ok boxes =>
    match btdtFold boxes none none with
    | .error e => .error e
    | .ok (some b, some t) => .ok ⟨b, t⟩
    | .ok _ => .error "btdt missing bnid/tran"

/-- Inner loop of `parse_fram`: parse every `btdt` inside a `btrs` box. -/
def framBtrs : List (String × Bytes) → Except String (List FrameBone)
  | [] => .ok []
  | (tag, data) :: rest =>
    if tag = "btdt" then
      match parse_btdt data with
      | .error e => .error e
      | .ok b =>
        match framBtrs rest with
        | .error e => .error e
        | .ok bs => .ok (b :: bs)
    else framBtrs rest

/-- Loop of `parse_fram` over the top-level boxes: fold fnum/time/bones. -/
def framFold : List (String × Bytes) → Option ℕ → Option ℕ → List FrameBone →
    Except String (Option ℕ × Option ℕ × List FrameBone)
  | [], f, t, bs => .ok (f, t, bs)
  | (tag, data) :: rest, f, t, bs =>
    if tag = "fnum" ∧ 4 ≤ data.length then framFold rest (some (u32le data 0)) t bs
    else if tag = "time" ∧ 4 ≤ data.length then framFold rest f (some (u32le data 0)) bs
    else if tag = "btrs" then
      match iter_boxes data with
      | .error e => .error e
      | .ok inner =>
        match framBtrs inner with
        | .error e => .error e
        | .ok bs' => framFold rest f t (bs ++ bs')
    else framFold rest f t bs

/-- `parse_fram` from receiver.py: missing `fnum`/`time` is a decode error. -/
def parse_fram (payload : Bytes) : Except String Frame :=
  match iter_boxes payload with
  | .error e => .error e
  | .ok boxes =>
    match framFold boxes none none [] with
    | .error e => .error e
    | .ok (some f, some t, bs) => .ok ⟨f, t, bs⟩
    | .ok _ => .error "fram missing fnum/time"

/-- Result of `parse_packet`. -/
inductive Packet where
  | skeleton (head_tag info_tag : String) (head info : List (String × BoxVal))
      (bones : List SkeletonBone)
  | frame (head_tag info_tag : String) (head info : List (String × BoxVal))
      (fr : Frame)
  | unknown (tag : String) (head info : List (String × BoxVal)) (payload_len : ℕ)
deriving DecidableEq

/-- `parse_packet` from receiver.py: three consecutive top-level boxes
(head, info, then skdf or fram); any other third tag is an unknown result,
not an error. -/
def parse_packet (datagram : Bytes) : Except String Packet :=
  match read_box datagram 0 with
  | .error e => .error e
  | .ok (tag1, head_payload, off1) =>
    match read_box datagram off1 with
    | .error e => .error e
    | .ok (tag2, info_payload, off2) =>
      match read_box datagram off2 with
      | .error e => .error e
      | .ok (tag3, third_payload, _) =>
        match parse_head head_payload with
        | .error e => .error e
        | .ok head =>
          match parse_info info_payload with
          | .error e => .error e
          | .ok info =>
            if tag3 = "skdf" then
              match parse_skdf third_payload with
              | .error e => .error e
              | .ok bones => .ok (.skeleton tag1 tag2 head info bones)
            else if tag3 = "fram" then
              match parse_fram third_payload with
              | .error e => .error e
              | .ok fr => .ok (.frame tag1 tag2 head info fr)
            else .ok (.unknown tag3 head info third_payload.length)

/-- `isOk` on a decode attempt. -/
def exceptOk {ε α : Type} : Except ε α → Bool
  | .ok _ => true
  | .error _ => false

/- Encoder-side helpers (not from the source): build concrete well-formed
packets for the decode-success part of the protocol claim. -/

/-- Bytes of a 4-character ASCII tag. -/
def tagBytes (s : String) : Bytes := s.data.map Char.toNat

/-- Little-endian u32 encoding (for payload lengths below 2^32). -/
def lenLE (n : ℕ) : Bytes := [n % 256, n / 256 % 256, n / 65536 % 256, n / 16777216 % 256]

/-- Encode one box: length, tag, payload. -/
def mkBox (tag : String) (payload : Bytes) : Bytes :=
  lenLE payload.length ++ tagBytes tag ++ payload

/-- A concrete well-formed `head` box payload: ftyp + vrsn sub-boxes. -/
def headPayload : Bytes := mkBox "ftyp" (tagBytes "sony") ++ mkBox "vrsn" [1]

/-- A concrete well-formed `info` box payload: ipad + rcvp sub-boxes. -/
def infoPayload : Bytes :=
  mkBox "ipad" [1, 2, 3, 4, 5, 6, 7, 8] ++ mkBox "rcvp" [63, 48]

/-- A concrete 28-byte `tran` payload (identity quaternion, origin). -/
def tranPayload : Bytes :=
  [0, 0, 0, 0] ++ [0, 0, 0, 0] ++ [0, 0, 0, 0] ++ [0, 0, 128, 63] ++
  [0, 0, 0, 0] ++ [0, 0, 0, 0] ++ [0, 0, 0, 0]

/-- A concrete well-formed `bndt` payload: bnid, pbid and rest transform. -/
def bndtPayload : Bytes :=
  mkBox "bnid" [0, 0] ++ mkBox "pbid" [65535 % 256, 255] ++ mkBox "tran" tranPayload

/-- A concrete well-formed skeleton-definition packet. -/
def skdfPacket : Bytes :=
  mkBox "head" headPayload ++ mkBox "sndf" infoPayload ++
    mkBox "skdf" (mkBox "bons" (mkBox "bndt" bndtPayload))

/-- A concrete well-formed `btdt` payload: bnid and transform. -/
def btdtPayload : Bytes := mkBox "bnid" [14, 0] ++ mkBox "tran" tranPayload

/-- A concrete well-formed frame packet referencing bone id 14 (l_hand). -/
def framPacket : Bytes :=
  mkBox "head" headPayload ++ mkBox "sndf" infoPayload ++
    mkBox "fram" (mkBox "fnum" [1, 0, 0, 0] ++ mkBox "time" [16, 39, 0, 0] ++
      mkBox "btrs" (mkBox "btdt" btdtPayload))

/- ============================================================
   utils.py : quaternions, clip, grade
   ============================================================ -/

/-- A raw 4-component quaternion as stored in JSON / numpy (may contain
non-finite components). -/
structure PQuat where
  c0 : PyFloat
  c1 : PyFloat
  c2 : PyFloat
  c3 : PyFloat
deriving DecidableEq

/-- All four components finite (this is exactly when `np.linalg.norm` of the
array is finite, under the exact-rational abstraction of float32). -/
def PQuat.allFinite (q : PQuat) : Bool :=
  q.c0.isFinite && q.c1.isFinite && q.c2.isFinite && q.c3.isFinite

/-- Componentwise negation (the other representative of the same rotation
under the quaternion double cover). -/
def PQuat.negQ (q : PQuat) : PQuat := ⟨q.c0.negF, q.c1.negF, q.c2.negF, q.c3.negF⟩

/-- The cyclic shift `[q[3], q[0], q[1], q[2]]` used for the second
component-order hypothesis in `quaternion_distance`. -/
def PQuat.shift (q : PQuat) : PQuat := ⟨q.c3, q.c0, q.c1, q.c2⟩

/-- A real-valued quaternion (after conversion / normalization). -/
structure RQuat where
  c0 : ℝ
  c1 : ℝ
  c2 : ℝ
  c3 : ℝ

/-- Real view of a raw quaternion (junk on non-finite components; only used
behind the `allFinite` guard). -/
noncomputable def PQuat.toR (q : PQuat) : RQuat :=
  ⟨q.c0.toR, q.c1.toR, q.c2.toR, q.c3.toR⟩

/-- Sum of squared components. -/
noncomputable def RQuat.normSq (q : RQuat) : ℝ :=
  q.c0 ^ 2 + q.c1 ^ 2 + q.c2 ^ 2 + q.c3 ^ 2

/-- `np.linalg.norm` of the 4-vector. -/
noncomputable def RQuat.norm (q : RQuat) : ℝ := Real.sqrt q.normSq

/-- `np.dot` of two 4-vectors. -/
noncomputable def RQuat.dot (p q : RQuat) : ℝ :=
  p.c0 * q.c0 + p.c1 * q.c1 + p.c2 * q.c2 + p.c3 * q.c3

/-- Componentwise division by a scalar (`q / n`). -/
noncomputable def RQuat.divS (q : RQuat) (n : ℝ) : RQuat :=
  ⟨q.c0 / n, q.c1 / n, q.c2 / n, q.c3 / n⟩

/-- The identity quaternion `[1, 0, 0, 0]`. -/
noncomputable def identQuat : RQuat := ⟨1, 0, 0, 0⟩

/-- `safe_unit_quat` from utils.py: normalize, falling back to the identity
when the norm is non-finite (some component is non-finite) or below 1e-8. -/
noncomputable def safe_unit_quat (q : PQuat) : RQuat :=
  if q.allFinite = true then
    if (PQuat.toR q).norm < 1e-8 then identQuat
    else (PQuat.toR q).divS ((PQuat.toR q).norm)
  else identQuat

/-- The inner `_angle` of `quaternion_distance`:
`arccos(clip(|dot a b|, -1, 1))`. -/
noncomputable def quatAngle (a b : RQuat) : ℝ :=
  Real.arccos (npClip |RQuat.dot a b| (-1) 1)

/-- `quaternion_distance` from utils.py: evaluate both component-order
hypotheses (direct and cyclically shifted), take the minimum angle, normalize
by pi/2 and clip to [0, 1]. -/
noncomputable def quaternion_distance (q1 q2 : PQuat) : ℝ :=
  let ang1 := quatAngle (safe_unit_quat q1) (safe_unit_quat q2)
  let ang2 := quatAngle (safe_unit_quat q1.shift) (safe_unit_quat q2.shift)
  npClip (min ang1 ang2 / (Real.pi / 2)) 0 1

/-- `compute_grade` from utils.py. -/
noncomputable def compute_grade (s : ℝ) : String :=
  if 0.85 ≤ s then "Perfect"
  else if 0.70 ≤ s then "Good"
  else if 0.50 ≤ s then "OK"
  else "Miss"

/- ============================================================
   config.py
   ============================================================ -/

noncomputable def POSE_WEIGHT : ℝ := 0.5
noncomputable def TRAJECTORY_WEIGHT : ℝ := 0.3
noncomputable def RHYTHM_WEIGHT : ℝ := 0.2

/-- `WINDOW_SIZE` from config.py. -/
def WINDOW_SIZE : ℕ := 60

/-- `JOINT_WEIGHTS` from config.py, in dict insertion order. -/
noncomputable def JOINT_WEIGHTS : List (String × ℝ) :=
  [("Hips", 0.5), ("Spine", 0.5),
   ("LeftArm", 1.0), ("RightArm", 1.0),
   ("LeftLeg", 1.0), ("RightLeg", 1.0),
   ("LeftHand", 2.0), ("RightHand", 2.0),
   ("LeftFoot", 2.0), ("RightFoot", 2.0)]

/- ============================================================
   pose_score.py
   ============================================================ -/

/-- Association-list lookup (Python `dict.get`; the dicts the pipeline builds
have unique keys). -/
def lookupS {α : Type} : List (String × α) → String → Option α
  | [], _ => none
  | (k, v) :: rest, key => if k = key then some v else lookupS rest key

/-- Placeholder quaternion for `Option.getD` at positions guarded by a
successful lookup. -/
def defaultPQuat : PQuat := ⟨.nan, .nan, .nan, .nan⟩

/-- The accumulation loop of `compute_pose_score` over the fixed weight
table.  The `np.isfinite(d)` skip in the source can never fire: the distance
is a clip to [0, 1] of real values, hence always finite in this model. -/
noncomputable def poseLoop (player ref : List (String × PQuat)) :
    ℝ → ℝ → List (String × ℝ) → ℝ × ℝ
  | total, weight_sum, [] => (total, weight_sum)
  | total, weight_sum, (j, w) :: rest =>
    if ((lookupS player j).isSome && (lookupS ref j).isSome) = true then
      let d := quaternion_distance ((lookupS player j).getD defaultPQuat)
        ((lookupS ref j).getD defaultPQuat)
      poseLoop player ref (total + w * d) (weight_sum + w) rest
    else poseLoop player ref total weight_sum rest

/-- `compute_pose_score` from pose_score.py, on two rotation dictionaries
(the `isinstance(…, dict)` guards hold by typing here; the raw-reference
variant below models the duck-typed call on unconverted JSON). -/
noncomputable def compute_pose_score (player_rot ref_rot : List (String × PQuat)) : ℝ :=
  let ts := poseLoop player_rot ref_rot 0 0 JOINT_WEIGHTS
  if ts.2 ≤ 1e-8 then 0 else npClip (1 - ts.1 / ts.2) 0 1

/-- Whether the joint of a weight-table entry is present in both rotation maps. -/
def overlapP (player ref : List (String × PQuat)) (jw : String × ℝ) : Bool :=
  (lookupS player jw.1).isSome && (lookupS ref jw.1).isSome

/-- Specification-side weighted total distance over the overlapping joints. -/
noncomputable def poseTotalSum (player ref : List (String × PQuat))
    (l : List (String × ℝ)) : ℝ :=
  ((l.filter (overlapP player ref)).map fun jw =>
    jw.2 * quaternion_distance ((lookupS player jw.1).getD defaultPQuat)
      ((lookupS ref jw.1).getD defaultPQuat)).sum

/-- Specification-side accumulated weight over the overlapping joints. -/
noncomputable def poseWeightSum (player ref : List (String × PQuat))
    (l : List (String × ℝ)) : ℝ :=
  ((l.filter (overlapP player ref)).map Prod.snd).sum

/- ============================================================
   rhythm_score.py
   ============================================================ -/

/-- The shapes `_as_2d` handles: a scalar (0-d), a 1-d signal, or a 2-d
signal of per-time-step rows. -/
inductive PySig where
  | d0 (x : ℝ)
  | d1 (xs : List ℝ)
  | d2 (rows : List (List ℝ))

/-- `_as_2d` from rhythm_score.py: scalars become a single 1-vector row, 1-d
signals become single-component rows, 2-d arrays are kept. -/
def _as_2d : PySig → List (List ℝ)
  | .d0 x => [[x]]
  | .d1 xs => xs.map fun x => [x]
  | .d2 rows => rows

/-- Componentwise row difference (`np.diff` row; numpy arrays are
rectangular, so the zip truncation never loses data on real inputs). -/
noncomputable def vsub (v w : List ℝ) : List ℝ := (v.zip w).map fun p => p.1 - p.2

/-- `compute_velocity` from rhythm_score.py: frame-to-frame difference, empty
when there are fewer than 2 samples. -/
noncomputable def compute_velocity (signal : PySig) : List (List ℝ) :=
  let a := _as_2d signal
  if a.length < 2 then [] else (a.tail.zip a).map fun p => vsub p.1 p.2

/-- Euclidean norm of a row (`np.linalg.norm(…, axis=1)` entry). -/
noncomputable def vnorm (v : List ℝ) : ℝ := Real.sqrt ((v.map fun x => x ^ 2).sum)

/-- `np.mean` of a list. -/
noncomputable def lmean (l : List ℝ) : ℝ := l.sum / l.length

/-- `compute_rhythm_score` from rhythm_score.py.  The
`np.isfinite(err)` guard of the source can never fire under the real-valued
model (claims about the rhythm score only quantify over finite signals). -/
noncomputable def compute_rhythm_score (player_signal ref_signal : PySig) : ℝ :=
  let pv := compute_velocity player_signal
  let rv := compute_velocity ref_signal
  if pv.length = 0 ∨ rv.length = 0 then 0.5
  else
    let p := pv.map vnorm
    let r := rv.map vnorm
    let n := min p.length r.length
    if n = 0 then 0.5
    else
      let p := p.take n
      let r := r.take n
      let err := lmean ((p.zip r).map fun q => |q.1 - q.2|)
      let denom := lmean (r.map fun x => |x|) + 1e-6
      npClip (Real.exp (-(err / denom))) 0 1

/- ============================================================
   dtw_online.py : SlidingDTW
   ============================================================ -/

/-- `SlidingDTW` state from dtw_online.py.  `window_size` and `band` are used
as non-negative counts everywhere in the repository (60 and 8). -/
structure SlidingDTW where
  W : ℕ
  band : ℕ
  player_buffer : List (List PyFloat)
  ref_buffer : List (List PyFloat)
deriving DecidableEq

/-- `SlidingDTW.reset`. -/
def SlidingDTW.reset (s : SlidingDTW) : SlidingDTW :=
  { s with player_buffer := [], ref_buffer := [] }

/-- `SlidingDTW.add_frame`: truncate both features to the shared minimum
dimension, drop the pair entirely when it is empty or contains a non-finite
component, otherwise append to both buffers and evict the oldest entry of
both when the capacity is exceeded. -/
def SlidingDTW.add_frame (s : SlidingDTW) (player_feat ref_feat : List PyFloat) :
    SlidingDTW :=
  let d := min player_feat.length ref_feat.length
  if d = 0 then s
  else
    let pf := player_feat.take d
    let rf := ref_feat.take d
    if (pf.all PyFloat.isFinite && rf.all PyFloat.isFinite) = true then
      let pb := s.player_buffer ++ [pf]
      let rb := s.ref_buffer ++ [rf]
      if s.W < pb.length then
        { s with player_buffer := pb.drop 1, ref_buffer := rb.drop 1 }
      else { s with player_buffer := pb, ref_buffer := rb }
    else s

/-- Euclidean distance between two stored feature vectors
(`np.linalg.norm(player - ref)`; entries in the buffers are finite by
construction, so `PyFloat.toR` is exact there). -/
noncomputable def eucDist (v w : List PyFloat) : ℝ :=
  Real.sqrt (((v.zip w).map fun p => (p.1.toR - p.2.toR) ^ 2).sum)

/-- The per-cell cost of the DTW: Euclidean distance between
`player_buffer[i-1]` and `ref_buffer[j-1]`. -/
noncomputable def dtwCostOf (s : SlidingDTW) (i j : ℕ) : ℝ :=
  eucDist (s.player_buffer.getD (i - 1) []) (s.ref_buffer.getD (j - 1) [])

/-- One row of the two-row rolling DP of `SlidingDTW.compute`: `curr[j]` is
computed for `j` in `[max(1, i-band), min(n, i+band)]` and is `+inf`
elsewhere (the `np.full(.., inf)` initialization and the explicit
`curr[j_start-1] = inf`). -/
noncomputable def rowNext (band n : ℕ) (cost : ℕ → ℕ → ℝ) (prev : ℕ → WithTop ℝ)
    (i : ℕ) : ℕ → WithTop ℝ
  | 0 => ⊤
  | j + 1 =>
    if max 1 (i - band) ≤ j + 1 ∧ j + 1 ≤ min n (i + band) then
      (cost i (j + 1) : WithTop ℝ) +
        min (rowNext band n cost prev i j) (min (prev (j + 1)) (prev j))
    else ⊤

/-- The successive rows of the rolling DP: row 0 is `[0, inf, ..., inf]`. -/
noncomputable def dtwRows (band n : ℕ) (cost : ℕ → ℕ → ℝ) : ℕ → ℕ → WithTop ℝ
  | 0 => fun j => if j = 0 then (0 : WithTop ℝ) else ⊤
  | i + 1 => rowNext band n cost (dtwRows band n cost i) (i + 1)

/-- Final step of `compute`: divide by `n`; a non-finite accumulated cost
(`+inf`: the optimal path left the band) yields 0.0 instead. -/
noncomputable def finishDTW (n : ℕ) (r : WithTop ℝ) : ℝ :=
  WithTop.recTopCoe 0 (fun x => x / n) r

/-- `SlidingDTW.compute` from dtw_online.py. -/
noncomputable def SlidingDTW.compute (s : SlidingDTW) : ℝ :=
  let n := s.player_buffer.length
  if n = 0 then 0
  else if n = 1 then eucDist (s.player_buffer.getD 0 []) (s.ref_buffer.getD 0 [])
  else finishDTW n (dtwRows s.band n (dtwCostOf s) n n)

/-- Specification-side banded DTW recurrence: `dp[0][0] = 0`, every other
border cell and every cell outside the Sakoe-Chiba band is `+inf`, and
in-band cells take the cell cost plus the minimum of
insertion/deletion/match. -/
noncomputable def dtwDP (band : ℕ) (cost : ℕ → ℕ → ℝ) : ℕ → ℕ → WithTop ℝ
  | 0, 0 => (0 : WithTop ℝ)
  | 0, _ + 1 => ⊤
  | _ + 1, 0 => ⊤
  | i + 1, j + 1 =>
    if i + 1 ≤ (j + 1) + band ∧ j + 1 ≤ (i + 1) + band then
      (cost (i + 1) (j + 1) : WithTop ℝ) +
        min (dtwDP band cost (i + 1) j)
          (min (dtwDP band cost i (j + 1)) (dtwDP band cost i j))
    else ⊤
termination_by i j => (i, j)

/-- Operations of the trajectory scorer, for stating state invariants over
arbitrary call sequences (`compute` reads the state without modifying it). -/
inductive DtwOp where
  | add (pf rf : List PyFloat)
  | computeOp
  | resetOp

/-- Effect of one operation on the scorer state. -/
def dtwStep (s : SlidingDTW) : DtwOp → SlidingDTW
  | .add pf rf => s.add_frame pf rf
  | .computeOp => s
  | .resetOp => s.reset

/-- Run a sequence of operations from a given state. -/
def runDtwOps (s : SlidingDTW) (ops : List DtwOp) : SlidingDTW :=
  ops.foldl dtwStep s

/- ============================================================
   JSON model and utils.py : json_to_motion_data
   ============================================================ -/

/-- JSON values (numbers carry a `PyFloat`: `json.loads` also accepts the
non-standard `Infinity`, `-Infinity` and `NaN` tokens). -/
inductive Json where
  | null
  | bool (b : Bool)
  | num (x : PyFloat)
  | str (s : String)
  | arr (xs : List Json)
  | obj (kvs : List (String × Json))

/-- Lookup in a JSON object (`dict.get`). -/
def jlookup : List (String × Json) → String → Option Json
  | [], _ => none
  | (k, v) :: rest, key => if k = key then some v else jlookup rest key

/-- Python truthiness of a JSON value (for the `or {}` fallbacks). -/
def jsonTruthy : Json → Bool
  | .null => false
  | .bool b => b
  | .num x => match x with
    | .finite q => decide (q ≠ 0)
    | _ => true
  | .str s => !(s = "")
  | .arr xs => !xs.isEmpty
  | .obj kvs => !kvs.isEmpty

/-- A 3-component position sample. -/
structure T3 where
  x : PyFloat
  y : PyFloat
  z : PyFloat
deriving DecidableEq

/-- All components finite. -/
def T3.allFinite (p : T3) : Bool := p.x.isFinite && p.y.isFinite && p.z.isFinite

/-- The flat feature contribution of a position sample. -/
def T3.toList (p : T3) : List PyFloat := [p.x, p.y, p.z]

/-- A numeric JSON leaf as a float (`np.asarray(..., dtype=np.float32)` on a
scalar; Python booleans are numeric). -/
def jsonNum : Json → Option PyFloat
  | .num x => some x
  | .bool b => some (.finite (if b then 1 else 0))
  | _ => none

/-- Conversion of a JSON value to a 4-vector
(`np.asarray(q, dtype=np.float32).reshape(4,)`); anything that is not a flat
array of exactly 4 numbers raises. -/
def jsonToQuat : Json → Except String PQuat
  | .arr [a, b, c, d] =>
    match jsonNum a, jsonNum b, jsonNum c, jsonNum d with
    | some qa, some qb, some qc, some qd => .ok ⟨qa, qb, qc, qd⟩
    | _, _, _, _ => .error "could not convert value to float32 array"
  | _ => .error "cannot reshape array into shape (4,)"

/-- Conversion of a JSON value to a 3-vector (`reshape(3,)`). -/
def jsonToPos : Json → Except String T3
  | .arr [a, b, c] =>
    match jsonNum a, jsonNum b, jsonNum c with
    | some px, some py, some pz => .ok ⟨px, py, pz⟩
    | _, _, _ => .error "could not convert value to float32 array"
  | _ => .error "cannot reshape array into shape (3,)"

/-- A numeric JSON leaf as a real (for rhythm signals; these feed the
real-valued rhythm scorer). -/
noncomputable def jsonNumR (j : Json) : Option ℝ := (jsonNum j).map PyFloat.toR

/-- A flat numeric JSON row. -/
noncomputable def jsonRow : Json → Option (List ℝ)
  | .arr xs => xs.mapM jsonNumR
  | _ => none

/-- Conversion of a JSON value to a signal
(`np.asarray(x, dtype=np.float32)` followed by `_as_2d`): a scalar, a flat
numeric array, or a rectangular array of numeric rows; anything else
raises. -/
noncomputable def jsonToSig : Json → Except String PySig
  | .num x => .ok (.d0 x.toR)
  | .bool b => .ok (.d0 (if b then 1 else 0))
  | .arr xs =>
    match xs.mapM jsonNumR with
    | some row => .ok (.d1 row)
    | none =>
      match xs.mapM jsonRow with
      | some rows =>
        if rows.all (fun r => r.length = (rows.headD []).length) then .ok (.d2 rows)
        else .error "setting an array element with a sequence"
      | none => .error "could not convert value to float32 array"
  | _ => .error "could not convert value to float32 array"

/-- The converted motion structure built by `json_to_motion_data`. -/
structure MotionData where
  timestamp : Json
  rotations : List (String × PQuat)
  trajectories : List (String × List T3)
  rhythm_signal : PySig

/-- The rotations loop of `json_to_motion_data`: entries that fail the
4-vector conversion are skipped. -/
def parseRotations : Json → List (String × PQuat)
  | .obj kvs =>
    kvs.foldr (fun kv acc =>
      match jsonToQuat kv.2 with
      | .ok q => (kv.1, q) :: acc
      | .error _ => acc) []
  | _ => []

/-- The trajectories loop of `json_to_motion_data`: `None` entries and
entries whose position list fails conversion are skipped. -/
def parseTrajectories : Json → List (String × List T3)
  | .obj kvs =>
    kvs.foldr (fun kv acc =>
      match kv.2 with
      | .null => acc
      | .arr ps =>
        match ps.mapM (fun p => (jsonToPos p).toOption) with
        | some l => (kv.1, l) :: acc
        | none => acc
      | _ => acc) []
  | _ => []

/-- Body of `json_to_motion_data` on a dict (never raises on a dict). -/
noncomputable def json_to_motion_obj (kvs : List (String × Json)) : MotionData :=
  let rotIn := (jlookup kvs "rotations").getD (.obj [])
  let rotIn := if jsonTruthy rotIn then rotIn else .obj []
  let trajIn := (jlookup kvs "trajectories").getD (.obj [])
  let trajIn := if jsonTruthy trajIn then trajIn else .obj []
  let rhyIn := (jlookup kvs "rhythm_signal").getD (.arr [])
  { timestamp := (jlookup kvs "timestamp").getD (.num (.finite 0)),
    rotations := parseRotations rotIn,
    trajectories := parseTrajectories trajIn,
    rhythm_signal := (jsonToSig rhyIn).toOption.getD (.d1 []) }

/-- `json_to_motion_data` from utils.py.  A non-dict argument raises
(`.get` on it is an AttributeError). -/
noncomputable def json_to_motion_data : Json → Except String MotionData
  | .obj kvs => .ok (json_to_motion_obj kvs)
  | _ => .error "object has no attribute get"

/- ============================================================
   main.py : feature extraction, controller state, entry points
   ============================================================ -/

/-- `extract_dtw_feature` from main.py applied to a converted
`MotionData` dict: requires non-empty LeftHand and RightHand trajectories
whose latest samples are finite, and concatenates them into a 6-vector. -/
def extract_dtw_feature (m : MotionData) : Option (List PyFloat) :=
  match lookupS m.trajectories "LeftHand", lookupS m.trajectories "RightHand" with
  | some lhl, some rhl =>
    match lhl.getLast?, rhl.getLast? with
    | some lh, some rh =>
      if (lh.allFinite && rh.allFinite) = true then some (lh.toList ++ rh.toList)
      else none
    | _, _ => none
  | _, _ => none

/-- `extract_dtw_feature` applied to a raw (unconverted) scoring dict, as
happens for a reference dict that already carries `rotations` and
`trajectories` keys: the same checks on the raw JSON, never raising (the
conversion is inside the try/except of the function). -/
def extract_dtw_feature_raw (data : List (String × Json)) : Option (List PyFloat) :=
  let traj := (jlookup data "trajectories").getD .null
  let traj := if jsonTruthy traj then traj else .obj []
  match traj with
  | .obj tkvs =>
    match jlookup tkvs "LeftHand", jlookup tkvs "RightHand" with
    | some (.arr lhl), some (.arr rhl) =>
      match lhl.getLast?, rhl.getLast? with
      | some lhj, some rhj =>
        match (jsonToPos lhj).toOption, (jsonToPos rhj).toOption with
        | some lh, some rh =>
          if (lh.allFinite && rh.allFinite) = true then some (lh.toList ++ rh.toList)
          else none
        | _, _ => none
      | _, _ => none
    | _, _ => none
  | _ => none

/-- The reference dict flowing through `process_unity_message`: either
already in scoring format (both `rotations` and `trajectories` keys present,
values still raw JSON) or converted through `json_to_motion_data`. -/
inductive RefSide where
  | conv (m : MotionData)
  | raw (kvs : List (String × Json))

/-- The branch of `process_unity_message` deciding whether to convert the
reference dict (conversion of a dict never raises). -/
noncomputable def refSideOf (refD : List (String × Json)) : RefSide :=
  if ((jlookup refD "rotations").isSome && (jlookup refD "trajectories").isSome) = true
  then .raw refD
  else .conv (json_to_motion_obj refD)

/-- The pose loop on a raw reference rotations dict: the per-joint quaternion
conversion inside `quaternion_distance` can raise on a malformed entry. -/
noncomputable def poseLoopRaw (player : List (String × PQuat))
    (refRot : List (String × Json)) :
    ℝ → ℝ → List (String × ℝ) → Except String (ℝ × ℝ)
  | total, weight_sum, [] => .ok (total, weight_sum)
  | total, weight_sum, (j, w) :: rest =>
    match lookupS player j, jlookup refRot j with
    | some pq, some rv =>
      match jsonToQuat rv with
      | .error e => .error e
      | .ok rq =>
        let d := quaternion_distance pq rq
        poseLoopRaw player refRot (total + w * d) (weight_sum + w) rest
    | _, _ => poseLoopRaw player refRot total weight_sum rest

/-- `compute_pose_score` on a raw reference rotations value: a non-dict value
fails the `isinstance` guard and scores 0.0. -/
noncomputable def compute_pose_score_raw (player : List (String × PQuat))
    (refRotJson : Json) : Except String ℝ :=
  match refRotJson with
  | .obj refRot =>
    match poseLoopRaw player refRot 0 0 JOINT_WEIGHTS with
    | .error e => .error e
    | .ok ts => .ok (if ts.2 ≤ 1e-8 then 0 else npClip (1 - ts.1 / ts.2) 0 1)
  | _ => .ok 0

/-- The pose stage of `process_unity_message`. -/
noncomputable def poseStep (player : MotionData) : RefSide → Except String ℝ
  | .conv m => .ok (compute_pose_score player.rotations m.rotations)
  | .raw kvs => compute_pose_score_raw player.rotations ((jlookup kvs "rotations").getD (.obj []))

/-- Feature extraction for the reference side. -/
def extractRef : RefSide → Option (List PyFloat)
  | .conv m => extract_dtw_feature m
  | .raw kvs => extract_dtw_feature_raw kvs

/-- The rhythm stage of `process_unity_message`: the raw-reference path
converts the raw `rhythm_signal` value, which can raise. -/
noncomputable def rhythmStep (player : MotionData) : RefSide → Except String ℝ
  | .conv m => .ok (compute_rhythm_score player.rhythm_signal m.rhythm_signal)
  | .raw kvs =>
    match jlookup kvs "rhythm_signal" with
    | none => .ok (compute_rhythm_score player.rhythm_signal (.d1 []))
    | some rj =>
      match jsonToSig rj with
      | .error e => .error e
      | .ok rsig => .ok (compute_rhythm_score player.rhythm_signal rsig)

/-- The global mutable scoring state of main.py / mocopi_adapter.py: the DTW
trajectory scorer plus the per-stream joint histories of the adapter. -/
structure PState where
  dtw : SlidingDTW
  histPlayer : List (String × List T3)
  histRef : List (String × List T3)
deriving DecidableEq

/-- `reset_state` from main.py: `dtw_trajectory.reset()` plus
`reset_adapter_state()`. -/
def reset_state (s : PState) : PState :=
  { dtw := s.dtw.reset, histPlayer := [], histRef := [] }

/-- The initial global state (`SlidingDTW(window_size=WINDOW_SIZE, band=8)`,
empty adapter histories). -/
def initPState : PState := { dtw := ⟨WINDOW_SIZE, 8, [], []⟩, histPlayer := [], histRef := [] }

/-- Values appearing in an emitted result object. -/
inductive OutVal where
  | null
  | bool (b : Bool)
  | num (x : ℝ)
  | str (s : String)

/-- An emitted result: the dict passed to `json.dumps`, in key order. -/
abbrev Output := List (String × OutVal)

/-- Lookup in an emitted result. -/
def olookup : Output → String → Option OutVal
  | [], _ => none
  | (k, v) :: rest, key => if k = key then some v else olookup rest key

/-- The failure result of the catch-all handler of the controller. -/
def failObj (e : String) : Output :=
  [("ok", .bool false), ("error", .str e), ("final", .num 0), ("pose", .num 0),
   ("trajectory", .num 0), ("rhythm", .num 0), ("grade", .str "Miss")]

/-- The reset acknowledgment result. -/
def resetObj : Output := [("ok", .bool true), ("reset", .bool true)]

/-- The success result of `process_unity_message`. -/
noncomputable def unityOkOutput (pose trajectory rhythm : ℝ) (trajectory_valid : Bool)
    (dtw_cost : Option ℝ) : Output :=
  let final := npClip (POSE_WEIGHT * pose + TRAJECTORY_WEIGHT * trajectory +
    RHYTHM_WEIGHT * rhythm) 0 1
  [("final", .num final), ("pose", .num pose), ("trajectory", .num trajectory),
   ("rhythm", .num rhythm), ("grade", .str (compute_grade final)), ("ok", .bool true),
   ("trajectory_valid", .bool trajectory_valid),
   ("dtw_cost", match dtw_cost with | none => .null | some c => .num c)]

/-- The reset test of `process_unity_message`:
`isinstance(raw, dict) and (raw.get("reset") is True or raw.get("command") == "reset")`. -/
def isResetMsg : Json → Bool
  | .obj kvs =>
    (match jlookup kvs "reset" with
     | some (.bool true) => true
     | _ => false) ||
    (match jlookup kvs "command" with
     | some (.str s) => s == "reset"
     | _ => false)
  | _ => false

/-- `process_unity_message` from main.py.  The first argument models the
outcome of `json.loads(json_string)` (`.error` is a malformed JSON string,
carrying the JSONDecodeError message, which is never empty in Python); the
second is the reference dict.  The returned pair is (new global state,
emitted result). -/
noncomputable def process_unity_message (inp : Except String Json)
    (refD : List (String × Json)) (st : PState) : PState × Output :=
  match inp with
  | .error e => (st, failObj e)
  | .ok raw =>
    if isResetMsg raw then (reset_state st, resetObj)
    else
      match json_to_motion_data raw with
      | .error e => (st, failObj e)
      | .ok player =>
        let rs := refSideOf refD
        match poseStep player rs with
        | .error e => (st, failObj e)
        | .ok pose =>
          match extract_dtw_feature player, extractRef rs with
          | some pf, some rf =>
            let dtw' := st.dtw.add_frame pf rf
            let st' := { st with dtw := dtw' }
            let cost := dtw'.compute
            let traj := npClip (Real.exp (-cost)) 0 1
            (match rhythmStep player rs with
             | .error e => (st', failObj e)
             | .ok rh => (st', unityOkOutput pose traj rh true (some cost)))
          | _, _ =>
            (match rhythmStep player rs with
             | .error e => (st, failObj e)
             | .ok rh => (st, unityOkOutput pose 0.5 rh false none))

/- ============================================================
   mocopi_adapter.py and process_mocopi_message
   ============================================================ -/

/-- `_NAME_MAP` from mocopi_adapter.py. -/
def NAME_MAP : List (String × String) := [("l_hand", "LeftHand"), ("r_hand", "RightHand")]

/-- Python `float()` of a JSON value (numbers and booleans convert; other
values raise). -/
def pyFloatOfJson : Json → Except String PyFloat
  | .num x => .ok x
  | .bool b => .ok (.finite (if b then 1 else 0))
  | _ => .error "float argument must be a number"

/-- `float(t_ns) / 1e9`. -/
def pyDivNano : PyFloat → PyFloat
  | .finite q => .finite (q / 1000000000)
  | x => x

/-- Replace-or-append update of an association list (a Python dict update
keeps the original insertion position of the key). -/
def setAssoc {α : Type} : List (String × α) → String → α → List (String × α)
  | [], k, v => [(k, v)]
  | (k', v') :: rest, k, v =>
    if k' = k then (k, v) :: rest else (k', v') :: setAssoc rest k v

/-- The scoring-format dict built by `adapt_mocopi_frame`
(`rhythm_signal` is always the empty list). -/
structure ScoringMsg where
  timestamp : PyFloat
  rotations : List (String × PQuat)
  trajectories : List (String × List T3)

/-- The bones loop of `adapt_mocopi_frame`, threading the per-stream history
(the mutable `_histories[stream]`): recognized bones with well-shaped
`rot_xyzw`/`pos_xyz` lists are converted with `float()` (which can raise,
preserving the history mutations made so far), appended to the joint history
(trimmed to the last `max_len`), and emitted. -/
def adaptLoop (max_len : ℕ) :
    List (String × Json) → List (String × List T3) → List (String × PQuat) →
    List (String × List T3) →
    List (String × List T3) × Except String (List (String × PQuat) × List (String × List T3))
  | [], hist, rots, trajs => (hist, .ok (rots, trajs))
  | (bname, bdata) :: rest, hist, rots, trajs =>
    match lookupS NAME_MAP bname with
    | none => adaptLoop max_len rest hist rots trajs
    | some joint =>
      match bdata with
      | .obj bkvs =>
        match (jlookup bkvs "rot_xyzw").getD .null, (jlookup bkvs "pos_xyz").getD .null with
        | .arr [r0, r1, r2, r3], .arr [p0, p1, p2] =>
          (match pyFloatOfJson r0, pyFloatOfJson r1, pyFloatOfJson r2, pyFloatOfJson r3,
              pyFloatOfJson p0, pyFloatOfJson p1, pyFloatOfJson p2 with
           | .ok a, .ok b, .ok c, .ok d, .ok px, .ok py, .ok pz =>
             let pos : T3 := ⟨px, py, pz⟩
             let old := (lookupS hist joint).getD []
             let appended := old ++ [pos]
             let trimmed :=
               if max_len < appended.length then appended.drop (appended.length - max_len)
               else appended
             adaptLoop max_len rest (setAssoc hist joint trimmed)
               (setAssoc rots joint ⟨a, b, c, d⟩) (setAssoc trajs joint trimmed)
           | _, _, _, _, _, _, _ => (hist, .error "float argument must be a number"))
        | _, _ => adaptLoop max_len rest hist rots trajs
      | _ => (hist, .error "object has no attribute get")

/-- `adapt_mocopi_frame` from mocopi_adapter.py, with the history of the stream
passed and returned explicitly (the `stream` guard cannot fire: both call
sites pass the literal stream names). -/
def adapt_mocopi_frame (frame : Json) (hist : List (String × List T3)) (max_len : ℕ) :
    List (String × List T3) × Except String ScoringMsg :=
  match frame with
  | .obj kvs =>
    match pyFloatOfJson ((jlookup kvs "time").getD (.num (.finite 0))) with
    | .error e => (hist, .error e)
    | .ok t =>
      let timestamp := pyDivNano t
      let bonesJ := (jlookup kvs "bones").getD (.obj [])
      let bonesJ := if jsonTruthy bonesJ then bonesJ else .obj []
      match bonesJ with
      | .obj bones =>
        match adaptLoop max_len bones hist [] [] with
        | (h', .error e) => (h', .error e)
        | (h', .ok rt) => (h', .ok ⟨timestamp, rt.1, rt.2⟩)
      | _ => (hist, .error "object is not iterable as a mapping")
  | _ => (hist, .error "object has no attribute get")

/-- The `json.dumps`/`json.loads` round trip of the adapted player dict, and
the raw reference dict handed to `process_unity_message`. -/
def scoringToKVs (m : ScoringMsg) : List (String × Json) :=
  [("timestamp", .num m.timestamp),
   ("rotations", .obj (m.rotations.map fun kv =>
     (kv.1, Json.arr [.num kv.2.c0, .num kv.2.c1, .num kv.2.c2, .num kv.2.c3]))),
   ("trajectories", .obj (m.trajectories.map fun kv =>
     (kv.1, Json.arr (kv.2.map fun p => Json.arr [.num p.x, .num p.y, .num p.z])))),
   ("rhythm_signal", .arr [])]

/-- The reset test of `process_mocopi_message`:
`isinstance(raw, dict) and raw.get("command") == "reset"` (the `reset` flag
is not checked here). -/
def isCmdReset : Json → Bool
  | .obj kvs =>
    match jlookup kvs "command" with
    | some (.str s) => s == "reset"
    | _ => false
  | _ => false

/-- The failure result of the `process_mocopi_message` handler: the same dict
shape with the prefixed message. -/
def mocopiFail (e : String) : Output := failObj ("process_mocopi_message failed: " ++ e)

/-- `process_mocopi_message` from main.py: parse both raw strings, reset on a
reset command in either, adapt both streams (player first; its history
mutations persist even if adapting the reference fails), then delegate to
`process_unity_message`. -/
noncomputable def process_mocopi_message (pin rin : Except String Json) (st : PState) :
    PState × Output :=
  match pin with
  | .error e => (st, mocopiFail e)
  | .ok praw =>
    match rin with
    | .error e => (st, mocopiFail e)
    | .ok rraw =>
      if (isCmdReset praw || isCmdReset rraw) = true then (reset_state st, resetObj)
      else
        match adapt_mocopi_frame praw st.histPlayer WINDOW_SIZE with
        | (hp', .error e) => ({ st with histPlayer := hp' }, mocopiFail e)
        | (hp', .ok pmsg) =>
          let st1 := { st with histPlayer := hp' }
          match adapt_mocopi_frame rraw st1.histRef WINDOW_SIZE with
          | (hr', .error e) => ({ st1 with histRef := hr' }, mocopiFail e)
          | (hr', .ok rmsg) =>
            let st2 := { st1 with histRef := hr' }
            process_unity_message (.ok (.obj (scoringToKVs pmsg))) (scoringToKVs rmsg) st2

/- ============================================================
   Concrete inputs used by counterexamples and witnesses
   ============================================================ -/

/-- The shape of a successful scoring result (the dict built at the end of
`process_unity_message`). -/
def okShapeOut (out : Output) : Prop :=
  ∃ f p t r g tv dc,
    out = [("final", .num f), ("pose", .num p), ("trajectory", .num t),
      ("rhythm", .num r), ("grade", .str g), ("ok", .bool true),
      ("trajectory_valid", .bool tv), ("dtw_cost", dc)]

/-- A reference dict that is only a reset command (no scoring keys). -/
def c2refKVs : List (String × Json) := [("command", .str "reset")]

/-- A non-trivial global state (non-empty DTW buffer and player history). -/
def c2state : PState :=
  { dtw := ⟨60, 8, [[.finite 1]], [[.finite 2]]⟩,
    histPlayer := [("LeftHand", [⟨.finite 0, .finite 0, .finite 0⟩])],
    histRef := [] }

/-- A player message whose trajectories lack the required hands (feature
extraction fails) but whose rotations contain a well-formed `Hips` entry. -/
def c6playerKVs : List (String × Json) :=
  [("rotations", .obj [("Hips", .arr [.num (.finite 1), .num (.finite 0),
     .num (.finite 0), .num (.finite 0)])]),
   ("trajectories", .obj [])]

/-- A reference dict in scoring format (both keys present, hence taken raw)
whose `Hips` rotation has only 3 components: `quaternion_distance` raises on
it when reshaping to a 4-vector. -/
def c6refKVs : List (String × Json) :=
  [("rotations", .obj [("Hips", .arr [.num (.finite 1), .num (.finite 0),
     .num (.finite 0)])]),
   ("trajectories", .obj [])]

/-- A two-frame DTW state for the compute witness. -/
def c3state : SlidingDTW :=
  ⟨60, 8, [[.finite 0], [.finite 1]], [[.finite 0], [.finite 2]]⟩

/- ============================================================
   Theorems
   ============================================================ -/

/-- C9 counterexample: the bone table has 27 entries (1 root + 7 torso +
2 neck + 1 head + 8 arm-chain + 8 leg-chain), not 26 as the claim states. -/
theorem C9_counterexample : BONE_NAMES.length = 27 ∧ BONE_NAMES.length ≠ 26 := by
  exact ⟨by decide, by decide⟩

/-- C9 (amended): the fixed bone-id to name table of the decoder has exactly 27
entries (root, 7 torso segments, 2 neck segments, head, left/right shoulder,
upper-arm, lower-arm, hand, and left/right upper-leg, lower-leg, foot,
toes), and every bone id outside the table's index range yields a
synthesized `bone_{id}` name rather than failing. -/
theorem C9_bone_table :
    BONE_NAMES.length = 27 ∧
    BONE_NAMES.getD 0 "" = "root" ∧
    BONE_NAMES.getD 1 "" = "torso_1" ∧ BONE_NAMES.getD 7 "" = "torso_7" ∧
    BONE_NAMES.getD 8 "" = "neck_1" ∧ BONE_NAMES.getD 9 "" = "neck_2" ∧
    BONE_NAMES.getD 10 "" = "head" ∧
    (["l_shoulder", "l_up_arm", "l_low_arm", "l_hand",
      "r_shoulder", "r_up_arm", "r_low_arm", "r_hand",
      "l_up_leg", "l_low_leg", "l_foot", "l_toes",
      "r_up_leg", "r_low_leg", "r_foot", "r_toes"].all (· ∈ BONE_NAMES)) ∧
    ∀ id : ℤ, id < 0 ∨ 27 ≤ id → bone_name id = "bone_" ++ toString id := by
  refine ⟨by decide, by decide, by decide, by decide, by decide, by decide, by decide,
    by decide, ?_⟩
  intro id h
  have hlen : (BONE_NAMES.length : ℤ) = 27 := by decide
  rw [bone_name, if_neg]
  rw [hlen]
  omega

/-- Witness for C9 at concrete out-of-range ids 27 and -3. -/
theorem C9_witness : bone_name 27 = "bone_27" ∧ bone_name (-3) = "bone_-3" := by
  constructor
  · rw [C9_bone_table.2.2.2.2.2.2.2.2 27 (Or.inr (by norm_num))]; rfl
  · rw [C9_bone_table.2.2.2.2.2.2.2.2 (-3) (Or.inl (by norm_num))]; rfl

/- Helper lemmas for the quaternion distance (C5). -/

theorem RQuat.normSq_nonneg (q : RQuat) : 0 ≤ q.normSq := by
  simp only [RQuat.normSq]
  positivity

theorem PyFloat.toR_negF (x : PyFloat) : (x.negF).toR = -(x.toR) := by
  cases x <;> simp [PyFloat.negF, PyFloat.toR]

theorem PyFloat.isFinite_negF (x : PyFloat) : (x.negF).isFinite = x.isFinite := by
  cases x <;> rfl

theorem PQuat.allFinite_negQ (q : PQuat) : (q.negQ).allFinite = q.allFinite := by
  cases q
  simp [PQuat.negQ, PQuat.allFinite, PyFloat.isFinite_negF]

theorem safe_unit_dot_self (q : PQuat) :
    (safe_unit_quat q).dot (safe_unit_quat q) = 1 := by
  by_cases hf : q.allFinite = true
  · by_cases hlt : (PQuat.toR q).norm < 1e-8
    · rw [safe_unit_quat, if_pos hf, if_pos hlt]
      simp [identQuat, RQuat.dot]
    · rw [safe_unit_quat, if_pos hf, if_neg hlt]
      set v := PQuat.toR q with hv
      have hpos : (0 : ℝ) < v.norm := lt_of_lt_of_le (by norm_num) (not_lt.mp hlt)
      have hsq : v.norm ^ 2 = v.normSq := Real.sq_sqrt (RQuat.normSq_nonneg v)
      have hne : v.norm ≠ 0 := ne_of_gt hpos
      have hd : (v.divS v.norm).dot (v.divS v.norm) = v.normSq / v.norm ^ 2 := by
        simp only [RQuat.divS, RQuat.dot, RQuat.normSq]
        field_simp
        ring
      rw [hd, ← hsq, div_self (pow_ne_zero 2 hne)]
  · rw [safe_unit_quat, if_neg hf]
    simp [identQuat, RQuat.dot]

theorem quatAngle_of_abs_dot_one {a b : RQuat} (h : |RQuat.dot a b| = 1) :
    quatAngle a b = 0 := by
  rw [quatAngle, h]
  have hc : npClip 1 (-1) 1 = 1 := by rw [npClip]; norm_num
  rw [hc, Real.arccos_one]

theorem RQuat.negR_toR (q : PQuat) :
    (q.negQ).toR = ⟨-(q.toR).c0, -(q.toR).c1, -(q.toR).c2, -(q.toR).c3⟩ := by
  cases q
  simp [PQuat.negQ, PQuat.toR, PyFloat.toR_negF]

theorem safe_unit_abs_dot_neg (q : PQuat) :
    |RQuat.dot (safe_unit_quat q) (safe_unit_quat q.negQ)| = 1 := by
  by_cases hf : q.allFinite = true
  · have hf' : (q.negQ).allFinite = true := by rw [PQuat.allFinite_negQ]; exact hf
    have hnormSq : (PQuat.toR q.negQ).normSq = (PQuat.toR q).normSq := by
      rw [RQuat.negR_toR]
      simp only [RQuat.normSq]
      ring
    have hnorm : (PQuat.toR q.negQ).norm = (PQuat.toR q).norm := by
      rw [RQuat.norm, RQuat.norm, hnormSq]
    by_cases hlt : (PQuat.toR q).norm < 1e-8
    · have h1 : safe_unit_quat q = identQuat := by
        rw [safe_unit_quat, if_pos hf, if_pos hlt]
      have h2 : safe_unit_quat q.negQ = identQuat := by
        rw [safe_unit_quat, if_pos hf', hnorm, if_pos hlt]
      rw [h1, h2]
      simp [RQuat.dot, identQuat]
    · have hlt' : ¬(PQuat.toR q.negQ).norm < 1e-8 := by rw [hnorm]; exact hlt
      have h1 : safe_unit_quat q = (PQuat.toR q).divS ((PQuat.toR q).norm) := by
        rw [safe_unit_quat, if_pos hf, if_neg hlt]
      have h2 : safe_unit_quat q.negQ = (PQuat.toR q.negQ).divS ((PQuat.toR q).norm) := by
        rw [safe_unit_quat, if_pos hf', if_neg hlt', hnorm]
      have hdot : RQuat.dot (safe_unit_quat q) (safe_unit_quat q.negQ) =
          -(RQuat.dot (safe_unit_quat q) (safe_unit_quat q)) := by
        rw [h1, h2, RQuat.negR_toR]
        simp only [RQuat.divS, RQuat.dot]
        ring
      rw [hdot, safe_unit_dot_self]
      norm_num
  · have hf' : ¬(q.negQ).allFinite = true := by rw [PQuat.allFinite_negQ]; exact hf
    have h1 : safe_unit_quat q = identQuat := by rw [safe_unit_quat, if_neg hf]
    have h2 : safe_unit_quat q.negQ = identQuat := by rw [safe_unit_quat, if_neg hf']
    rw [h1, h2]
    simp [RQuat.dot, identQuat]

theorem PQuat.shift_negQ (q : PQuat) : (q.negQ).shift = (q.shift).negQ := by
  cases q
  rfl

theorem npClip_zero_one_mem (x : ℝ) : 0 ≤ npClip x 0 1 ∧ npClip x 0 1 ≤ 1 :=
  ⟨le_min (le_max_right x 0) zero_le_one, min_le_right _ _⟩

/-- C5: for every 4-component quaternion `q`, the quaternion distance
satisfies `distance(q, q) = 0` and `distance(q, -q) = 0` (double-cover sign
ambiguity), and the returned distance always lies in [0, 1].  This holds
with no hypotheses in the model (in particular also for degenerate-norm or
non-finite inputs, where both arguments collapse to the identity
quaternion), which subsumes the finite / non-negligible-norm case of the claim. -/
theorem C5_quaternion_distance (q q1 q2 : PQuat) :
    quaternion_distance q q = 0 ∧
    quaternion_distance q q.negQ = 0 ∧
    0 ≤ quaternion_distance q1 q2 ∧ quaternion_distance q1 q2 ≤ 1 := by
  refine ⟨?_, ?_, (npClip_zero_one_mem _).1, (npClip_zero_one_mem _).2⟩
  · have h1 : quatAngle (safe_unit_quat q) (safe_unit_quat q) = 0 :=
      quatAngle_of_abs_dot_one (by rw [safe_unit_dot_self]; norm_num)
    have h2 : quatAngle (safe_unit_quat q.shift) (safe_unit_quat q.shift) = 0 :=
      quatAngle_of_abs_dot_one (by rw [safe_unit_dot_self]; norm_num)
    rw [quaternion_distance, h1, h2, npClip]
    norm_num
  · have h1 : quatAngle (safe_unit_quat q) (safe_unit_quat q.negQ) = 0 :=
      quatAngle_of_abs_dot_one (safe_unit_abs_dot_neg q)
    have h2 : quatAngle (safe_unit_quat q.shift) (safe_unit_quat (q.negQ).shift) = 0 := by
      rw [PQuat.shift_negQ]
      exact quatAngle_of_abs_dot_one (safe_unit_abs_dot_neg q.shift)
    rw [quaternion_distance, h1, h2, npClip]
    norm_num

/- Helper lemmas for the rhythm score (C10). -/

theorem zip_self_abs_sub_sum (l : List ℝ) :
    ((l.zip l).map fun q => |q.1 - q.2|).sum = 0 := by
  induction l with
  | nil => simp
  | cons a t ih => simp [List.zip_cons_cons, ih]

/-- C10: comparing a signal of at least 2 samples against itself yields a
rhythm score of exactly 1.0 (zero velocity error, `exp(0) = 1` before
clamping); and whenever either input has fewer than 2 samples the rhythm
score is exactly 0.5. -/
theorem C10_rhythm_score :
    (∀ s : PySig, 2 ≤ (_as_2d s).length → compute_rhythm_score s s = 1) ∧
    (∀ p r : PySig, (_as_2d p).length < 2 ∨ (_as_2d r).length < 2 →
      compute_rhythm_score p r = 0.5) := by
  constructor
  · intro s h
    have h2 : ¬(_as_2d s).length < 2 := not_lt.mpr h
    have hvel : compute_velocity s =
        ((_as_2d s).tail.zip (_as_2d s)).map fun p => vsub p.1 p.2 := by
      rw [compute_velocity]
      simp only [if_neg h2]
    simp only [compute_rhythm_score, hvel]
    generalize hg : (((_as_2d s).tail.zip (_as_2d s)).map fun p => vsub p.1 p.2) = V
    have hlenV : V.length = (_as_2d s).length - 1 := by
      rw [← hg]
      simp [List.length_zip]
    have hV0 : ¬(V.length = 0 ∨ V.length = 0) := by
      rw [hlenV]
      omega
    rw [if_neg hV0]
    have hmin : (V.map vnorm).length ⊓ (V.map vnorm).length = (V.map vnorm).length :=
      min_self _
    rw [hmin]
    have hVm : ¬(V.map vnorm).length = 0 := by
      simp only [List.length_map, hlenV]
      omega
    rw [if_neg hVm]
    rw [List.take_length]
    have herr : lmean ((((V.map vnorm)).zip ((V.map vnorm))).map fun q => |q.1 - q.2|) = 0 := by
      rw [lmean, zip_self_abs_sub_sum, zero_div]
    rw [herr, zero_div, neg_zero, Real.exp_zero, npClip]
    norm_num
  · intro p r h
    rcases h with h | h
    · have hv : compute_velocity p = [] := by rw [compute_velocity]; simp only [if_pos h]
      rw [compute_rhythm_score, if_pos]
      rw [hv]
      simp
    · have hv : compute_velocity r = [] := by rw [compute_velocity]; simp only [if_pos h]
      rw [compute_rhythm_score, if_pos]
      rw [hv]
      simp

/-- Witness for C10 at a two-sample signal and at a one-sample signal. -/
theorem C10_witness :
    compute_rhythm_score (.d1 [0, 1]) (.d1 [0, 1]) = 1 ∧
    compute_rhythm_score (.d1 [5]) (.d1 [0, 1]) = 0.5 := by
  constructor
  · exact C10_rhythm_score.1 (.d1 [0, 1]) (by simp [_as_2d])
  · exact C10_rhythm_score.2 (.d1 [5]) (.d1 [0, 1]) (Or.inl (by simp [_as_2d]))

/- Helper lemmas for the pose score (C8). -/

theorem poseLoop_spec (player ref : List (String × PQuat)) :
    ∀ (l : List (String × ℝ)) (t s : ℝ),
      poseLoop player ref t s l =
        (t + poseTotalSum player ref l, s + poseWeightSum player ref l) := by
  intro l
  induction l with
  | nil =>
    intro t s
    simp [poseLoop, poseTotalSum, poseWeightSum]
  | cons jw rest ih =>
    intro t s
    obtain ⟨j, w⟩ := jw
    by_cases hc : ((lookupS player j).isSome && (lookupS ref j).isSome) = true
    · have hov : overlapP player ref (j, w) = true := hc
      rw [poseLoop, if_pos hc, ih]
      simp only [poseTotalSum, poseWeightSum, List.filter_cons, hov, if_pos,
        List.map_cons, List.sum_cons]
      simp only [Prod.mk.injEq]
      constructor <;> ring
    · have hov : ¬overlapP player ref (j, w) = true := hc
      rw [poseLoop, if_neg hc, ih]
      simp only [poseTotalSum, poseWeightSum, List.filter_cons]
      rw [if_neg hov]

theorem JOINT_WEIGHTS_half_le : ∀ jw ∈ JOINT_WEIGHTS, (1/2 : ℝ) ≤ jw.2 := by
  intro jw h
  fin_cases h <;> norm_num

/-- C8: with no joint present in both rotation maps and in the fixed weight
table, the accumulated weight is 0 (hence at most 1e-8) and the pose score is
exactly 0.0; with at least one overlapping joint the score equals 1 minus
the weight-averaged quaternion distance over the overlapping joints, clamped
to [0, 1] (all distances are finite in the model, so the non-finite skip
never removes a term). -/
theorem C8_pose_score (player ref : List (String × PQuat)) :
    ((∀ jw ∈ JOINT_WEIGHTS, overlapP player ref jw = false) →
      compute_pose_score player ref = 0) ∧
    ((∃ jw ∈ JOINT_WEIGHTS, overlapP player ref jw = true) →
      compute_pose_score player ref =
        npClip (1 - poseTotalSum player ref JOINT_WEIGHTS /
          poseWeightSum player ref JOINT_WEIGHTS) 0 1) := by
  have hps := poseLoop_spec player ref JOINT_WEIGHTS 0 0
  constructor
  · intro h
    have hfil : JOINT_WEIGHTS.filter (overlapP player ref) = [] := by
      rw [List.filter_eq_nil_iff]
      intro jw hmem
      rw [h jw hmem]
      exact Bool.false_ne_true
    rw [compute_pose_score, hps]
    simp only [poseTotalSum, poseWeightSum, hfil, List.map_nil, List.sum_nil, add_zero]
    rw [if_pos (by norm_num)]
  · rintro ⟨jw, hmem, hov⟩
    have hmemf : jw ∈ JOINT_WEIGHTS.filter (overlapP player ref) :=
      List.mem_filter.mpr ⟨hmem, hov⟩
    have hmem2 : jw.2 ∈ (JOINT_WEIGHTS.filter (overlapP player ref)).map Prod.snd :=
      List.mem_map_of_mem Prod.snd hmemf
    have hnonneg : ∀ x ∈ (JOINT_WEIGHTS.filter (overlapP player ref)).map Prod.snd,
        (0 : ℝ) ≤ x := by
      intro x hx
      obtain ⟨p, hp, rfl⟩ := List.mem_map.mp hx
      have := JOINT_WEIGHTS_half_le p (List.mem_of_mem_filter hp)
      linarith
    have hsum : (1/2 : ℝ) ≤ poseWeightSum player ref JOINT_WEIGHTS := by
      have h1 : jw.2 ≤ ((JOINT_WEIGHTS.filter (overlapP player ref)).map Prod.snd).sum :=
        List.single_le_sum hnonneg _ hmem2
      have h2 := JOINT_WEIGHTS_half_le jw hmem
      rw [poseWeightSum]
      linarith
    rw [compute_pose_score, hps]
    simp only [zero_add]
    rw [if_neg (by norm_num at hsum ⊢; linarith)]

/-- Witness for C8: disjoint (empty) maps score 0; maps sharing the `Hips`
joint score by the clamped weighted average. -/
theorem C8_witness :
    compute_pose_score [] [] = 0 ∧
    compute_pose_score [("Hips", ⟨.finite 1, .finite 0, .finite 0, .finite 0⟩)]
        [("Hips", ⟨.finite 1, .finite 0, .finite 0, .finite 0⟩)] =
      npClip (1 - poseTotalSum [("Hips", ⟨.finite 1, .finite 0, .finite 0, .finite 0⟩)]
          [("Hips", ⟨.finite 1, .finite 0, .finite 0, .finite 0⟩)] JOINT_WEIGHTS /
        poseWeightSum [("Hips", ⟨.finite 1, .finite 0, .finite 0, .finite 0⟩)]
          [("Hips", ⟨.finite 1, .finite 0, .finite 0, .finite 0⟩)] JOINT_WEIGHTS) 0 1 := by
  constructor
  · exact (C8_pose_score [] []).1 (fun jw _ => rfl)
  · exact (C8_pose_score _ _).2 ⟨("Hips", 0.5), by simp [JOINT_WEIGHTS], rfl⟩

/- Helper lemmas for the DTW buffer invariant (C4). -/

theorem add_frame_cases (s : SlidingDTW) (pf rf : List PyFloat) :
    (min pf.length rf.length = 0 ∨
      ¬((pf.take (min pf.length rf.length)).all PyFloat.isFinite &&
        (rf.take (min pf.length rf.length)).all PyFloat.isFinite) = true →
      s.add_frame pf rf = s) ∧
    (min pf.length rf.length ≠ 0 →
      ((pf.take (min pf.length rf.length)).all PyFloat.isFinite &&
        (rf.take (min pf.length rf.length)).all PyFloat.isFinite) = true →
      s.add_frame pf rf =
        { s with
          player_buffer :=
            if s.W < s.player_buffer.length + 1 then
              (s.player_buffer ++ [pf.take (min pf.length rf.length)]).drop 1
            else s.player_buffer ++ [pf.take (min pf.length rf.length)],
          ref_buffer :=
            if s.W < s.player_buffer.length + 1 then
              (s.ref_buffer ++ [rf.take (min pf.length rf.length)]).drop 1
            else s.ref_buffer ++ [rf.take (min pf.length rf.length)] }) := by
  constructor
  · intro h
    rcases h with h | h
    · rw [SlidingDTW.add_frame, if_pos h]
    · rw [SlidingDTW.add_frame]
      split
      · rfl
      · rw [if_neg h]
  · intro h1 h2
    rw [SlidingDTW.add_frame, if_neg h1, if_pos h2]
    have hl : (s.player_buffer ++ [pf.take (min pf.length rf.length)]).length =
        s.player_buffer.length + 1 := by
      simp
    by_cases hw : s.W < s.player_buffer.length + 1
    · rw [if_pos (by rw [hl]; exact hw), if_pos hw, if_pos hw]
    · rw [if_neg (by rw [hl]; exact hw), if_neg hw, if_neg hw]

theorem dtw_inv_step (s : SlidingDTW) (op : DtwOp)
    (h : s.player_buffer.length = s.ref_buffer.length ∧ s.player_buffer.length ≤ s.W) :
    ((dtwStep s op).player_buffer.length = (dtwStep s op).ref_buffer.length ∧
      (dtwStep s op).player_buffer.length ≤ (dtwStep s op).W) ∧
    (dtwStep s op).W = s.W := by
  cases op with
  | computeOp => exact ⟨h, rfl⟩
  | resetOp => exact ⟨by simp [dtwStep, SlidingDTW.reset], rfl⟩
  | add pf rf =>
    obtain ⟨hEq, hLe⟩ := h
    simp only [dtwStep]
    by_cases h1 : min pf.length rf.length = 0
    · rw [(add_frame_cases s pf rf).1 (Or.inl h1)]
      exact ⟨⟨hEq, hLe⟩, rfl⟩
    · by_cases h2 : ((pf.take (min pf.length rf.length)).all PyFloat.isFinite &&
        (rf.take (min pf.length rf.length)).all PyFloat.isFinite) = true
      · rw [(add_frame_cases s pf rf).2 h1 h2]
        by_cases hw : s.W < s.player_buffer.length + 1
        · refine ⟨⟨?_, ?_⟩, rfl⟩ <;>
            simp only [if_pos hw, List.length_drop, List.length_append,
              List.length_cons, List.length_nil] <;>
            omega
        · refine ⟨⟨?_, ?_⟩, rfl⟩ <;>
            simp only [if_neg hw, List.length_append, List.length_cons, List.length_nil] <;>
            omega
      · rw [(add_frame_cases s pf rf).1 (Or.inr h2)]
        exact ⟨⟨hEq, hLe⟩, rfl⟩

theorem dtw_inv_run : ∀ (ops : List DtwOp) (s : SlidingDTW),
    (s.player_buffer.length = s.ref_buffer.length ∧ s.player_buffer.length ≤ s.W) →
    ((runDtwOps s ops).player_buffer.length = (runDtwOps s ops).ref_buffer.length ∧
      (runDtwOps s ops).player_buffer.length ≤ (runDtwOps s ops).W) ∧
    (runDtwOps s ops).W = s.W := by
  intro ops
  induction ops with
  | nil => intro s h; exact ⟨h, rfl⟩
  | cons op rest ih =>
    intro s h
    have hstep := dtw_inv_step s op h
    have := ih (dtwStep s op) hstep.1
    refine ⟨this.1, ?_⟩
    rw [show runDtwOps s (op :: rest) = runDtwOps (dtwStep s op) rest from rfl] at *
    rw [this.2, hstep.2]

/-- C4: the trajectory-scorer state invariant.  Starting from a fresh scorer,
after any sequence of add_frame / compute / reset calls the player and
reference buffers have equal length, never exceeding the capacity W; and
each `add_frame` either drops the sample entirely (empty shared dimension or
a non-finite component after truncation) or appends the truncated sample to
both buffers, evicting the oldest element of both when the capacity is
exceeded. -/
theorem C4_buffer_invariant :
    (∀ (W band : ℕ) (ops : List DtwOp),
      (runDtwOps ⟨W, band, [], []⟩ ops).player_buffer.length =
        (runDtwOps ⟨W, band, [], []⟩ ops).ref_buffer.length ∧
      (runDtwOps ⟨W, band, [], []⟩ ops).player_buffer.length ≤ W) ∧
    (∀ (s : SlidingDTW) (pf rf : List PyFloat),
      (min pf.length rf.length = 0 ∨
        ¬((pf.take (min pf.length rf.length)).all PyFloat.isFinite &&
          (rf.take (min pf.length rf.length)).all PyFloat.isFinite) = true →
        s.add_frame pf rf = s) ∧
      (min pf.length rf.length ≠ 0 →
        ((pf.take (min pf.length rf.length)).all PyFloat.isFinite &&
          (rf.take (min pf.length rf.length)).all PyFloat.isFinite) = true →
        s.add_frame pf rf =
          { s with
            player_buffer :=
              if s.W < s.player_buffer.length + 1 then
                (s.player_buffer ++ [pf.take (min pf.length rf.length)]).drop 1
              else s.player_buffer ++ [pf.take (min pf.length rf.length)],
            ref_buffer :=
              if s.W < s.player_buffer.length + 1 then
                (s.ref_buffer ++ [rf.take (min pf.length rf.length)]).drop 1
              else s.ref_buffer ++ [rf.take (min pf.length rf.length)] })) := by
  constructor
  · intro W band ops
    have h := dtw_inv_run ops ⟨W, band, [], []⟩ (by simp)
    rw [h.2] at h
    exact h.1
  · intro s pf rf
    exact add_frame_cases s pf rf

/-- Witness for C4: a concrete operation sequence at capacity 1, and a
concrete dropped (non-finite) frame. -/
theorem C4_witness :
    ((runDtwOps ⟨1, 8, [], []⟩
        [DtwOp.add [.finite 1] [.finite 2], DtwOp.add [.finite 3] [.finite 4]]).player_buffer.length =
      (runDtwOps ⟨1, 8, [], []⟩
        [DtwOp.add [.finite 1] [.finite 2], DtwOp.add [.finite 3] [.finite 4]]).ref_buffer.length ∧
      (runDtwOps ⟨1, 8, [], []⟩
        [DtwOp.add [.finite 1] [.finite 2], DtwOp.add [.finite 3] [.finite 4]]).player_buffer.length ≤ 1) ∧
    SlidingDTW.add_frame ⟨1, 8, [], []⟩ [.nan] [.finite 0] = ⟨1, 8, [], []⟩ := by
  constructor
  · exact C4_buffer_invariant.1 1 8 _
  · exact (C4_buffer_invariant.2 ⟨1, 8, [], []⟩ [.nan] [.finite 0]).1 (Or.inr (by decide))

/- Helper lemmas for the DTW compute (C3): the two-row rolling computation
equals the full banded recurrence on all cells with indices at most n. -/

theorem dtwRows_eq_dp (band n : ℕ) (cost : ℕ → ℕ → ℝ) :
    ∀ i, i ≤ n → ∀ j, j ≤ n → dtwRows band n cost i j = dtwDP band cost i j := by
  intro i
  induction i with
  | zero =>
    intro _ j _
    cases j with
    | zero => simp [dtwRows, dtwDP]
    | succ j => simp [dtwRows, dtwDP]
  | succ i ih =>
    intro hi j
    have hi' : i ≤ n := Nat.le_of_succ_le hi
    induction j with
    | zero =>
      intro _
      simp [dtwRows, rowNext, dtwDP]
    | succ j ihj =>
      intro hj
      have hj' : j ≤ n := Nat.le_of_succ_le hj
      have e1 : dtwRows band n cost (i + 1) (j + 1) =
          (if max 1 (i + 1 - band) ≤ j + 1 ∧ j + 1 ≤ min n (i + 1 + band) then
            (cost (i + 1) (j + 1) : WithTop ℝ) +
              min (dtwRows band n cost (i + 1) j)
                (min (dtwRows band n cost i (j + 1)) (dtwRows band n cost i j))
          else ⊤) := rfl
      rw [e1, dtwDP]
      by_cases hc : i + 1 ≤ (j + 1) + band ∧ j + 1 ≤ (i + 1) + band
      · rw [if_pos hc,
          if_pos (show max 1 (i + 1 - band) ≤ j + 1 ∧ j + 1 ≤ min n (i + 1 + band) by omega)]
        rw [ih hi' (j + 1) hj, ih hi' j hj', ihj hj']
      · rw [if_neg hc,
          if_neg (show ¬(max 1 (i + 1 - band) ≤ j + 1 ∧ j + 1 ≤ min n (i + 1 + band)) by omega)]

/-- C3: `compute()` returns 0.0 on an empty buffer, the Euclidean distance
between the single stored pair when the buffer holds one frame, and for
n >= 2 the value `dp[n][n] / n` of the Sakoe-Chiba-banded DTW recurrence
(borders and out-of-band cells +inf, cell cost the Euclidean distance
between `player[i-1]` and `ref[j-1]`, transition the minimum of
insertion / deletion / match); a non-finite `dp[n][n]` yields 0.0 instead. -/
theorem C3_compute_dtw (s : SlidingDTW) :
    (s.player_buffer.length = 0 → s.compute = 0) ∧
    (∀ p r, s.player_buffer = [p] → s.ref_buffer = [r] → s.compute = eucDist p r) ∧
    (2 ≤ s.player_buffer.length →
      s.compute = finishDTW s.player_buffer.length
        (dtwDP s.band (dtwCostOf s) s.player_buffer.length s.player_buffer.length) ∧
      (dtwDP s.band (dtwCostOf s) s.player_buffer.length s.player_buffer.length = ⊤ →
        s.compute = 0)) := by
  refine ⟨?_, ?_, ?_⟩
  · intro h
    rw [SlidingDTW.compute]
    simp only [h, if_pos]
  · intro p r hp hr
    rw [SlidingDTW.compute]
    simp only [hp, hr, List.length_cons, List.length_nil]
    norm_num
  · intro h
    have h0 : ¬s.player_buffer.length = 0 := by omega
    have h1 : ¬s.player_buffer.length = 1 := by omega
    have hmain : s.compute = finishDTW s.player_buffer.length
        (dtwDP s.band (dtwCostOf s) s.player_buffer.length s.player_buffer.length) := by
      rw [SlidingDTW.compute]
      simp only [if_neg h0, if_neg h1]
      rw [dtwRows_eq_dp s.band s.player_buffer.length (dtwCostOf s)
        s.player_buffer.length (le_refl _) s.player_buffer.length (le_refl _)]
    refine ⟨hmain, ?_⟩
    intro htop
    rw [hmain, htop]
    rfl

/-- Witness for C3 at a concrete two-frame state. -/
theorem C3_witness :
    c3state.compute = finishDTW 2 (dtwDP 8 (dtwCostOf c3state) 2 2) := by
  exact ((C3_compute_dtw c3state).2.2 (by decide)).1

/-- C7: the protocol decoder fails exactly on structural truncation or a
missing mandatory field: `read_box` errors precisely when the 8-byte header
or the declared payload extends past the end of the buffer; a `tran` payload
errors precisely when it is shorter than 28 bytes; and concrete well-formed
skeleton-definition and frame packets decode without raising. -/
theorem C7_decode_errors :
    (∀ (buf : Bytes) (off : ℕ),
      (∃ e, read_box buf off = .error e) ↔
        (buf.length < off + 8 ∨ buf.length < off + 8 + u32le buf off)) ∧
    (∀ payload : Bytes,
      (∃ e, parse_tran_payload payload = .error e) ↔ payload.length < 28) ∧
    exceptOk (parse_packet skdfPacket) = true ∧
    exceptOk (parse_packet framPacket) = true := by
  refine ⟨?_, ?_, by rfl, by rfl⟩
  · intro buf off
    simp only [read_box]
    split_ifs with hA hB
    · exact ⟨fun _ => Or.inl hA, fun _ => ⟨_, rfl⟩⟩
    · exact ⟨fun _ => Or.inr hB, fun _ => ⟨_, rfl⟩⟩
    · constructor
      · rintro ⟨e, he⟩
        simp at he
      · intro hor
        exfalso
        rcases hor with h | h <;> omega
  · intro payload
    rw [parse_tran_payload]
    split_ifs with h
    · exact ⟨fun _ => h, fun _ => ⟨_, rfl⟩⟩
    · constructor
      · rintro ⟨e, he⟩
        simp at he
      · intro hlt
        exact absurd hlt h

/- Helper lemmas for the controller boundary (C1, C2, C6): every raise site
of the modelled pipeline carries a non-empty message. -/

theorem string_append_ne_empty (s t : String) (h : s ≠ "") : s ++ t ≠ "" := by
  intro hc
  apply h
  have hd := congrArg String.data hc
  rw [String.data_append] at hd
  have h2 : s.data = [] := (List.append_eq_nil.mp hd).1
  cases s with
  | mk data =>
    cases h2
    rfl

theorem jsonToQuat_error_ne : ∀ (j : Json) (e : String), jsonToQuat j = .error e → e ≠ "" := by
  intro j e h
  unfold jsonToQuat at h
  repeat' split at h
  all_goals first
    | (injection h; done)
    | (injection h with h2; subst h2; decide)

theorem jsonToSig_error_ne : ∀ (j : Json) (e : String), jsonToSig j = .error e → e ≠ "" := by
  intro j e h
  unfold jsonToSig at h
  repeat' split at h
  all_goals first
    | (injection h; done)
    | (injection h with h2; subst h2; decide)

theorem json_to_motion_data_error_ne :
    ∀ (j : Json) (e : String), json_to_motion_data j = .error e → e ≠ "" := by
  intro j e h
  unfold json_to_motion_data at h
  split at h
  · injection h
  · injection h with h2
    subst h2
    decide

theorem poseLoopRaw_error_ne (player : List (String × PQuat))
    (refRot : List (String × Json)) :
    ∀ (l : List (String × ℝ)) (t s : ℝ) (e : String),
      poseLoopRaw player refRot t s l = .error e → e ≠ "" := by
  intro l
  induction l with
  | nil =>
    intro t s e h
    simp [poseLoopRaw] at h
  | cons jw rest ih =>
    intro t s e h
    obtain ⟨j, w⟩ := jw
    unfold poseLoopRaw at h
    repeat' split at h
    all_goals first
      | (injection h; done)
      | exact ih _ _ _ h
      | (rename_i e2 heq
         injection h with h2
         subst h2
         exact jsonToQuat_error_ne _ _ heq)

theorem compute_pose_score_raw_error_ne (player : List (String × PQuat)) (j : Json)
    (e : String) (h : compute_pose_score_raw player j = .error e) : e ≠ "" := by
  unfold compute_pose_score_raw at h
  repeat' split at h
  all_goals first
    | (injection h; done)
    | (rename_i e2 heq
       injection h with h2
       subst h2
       exact poseLoopRaw_error_ne _ _ _ _ _ _ heq)

theorem poseStep_error_ne (player : MotionData) (rs : RefSide) (e : String)
    (h : poseStep player rs = .error e) : e ≠ "" := by
  cases rs with
  | conv m => simp [poseStep] at h
  | raw kvs => exact compute_pose_score_raw_error_ne _ _ _ h

theorem rhythmStep_error_ne (player : MotionData) (rs : RefSide) (e : String)
    (h : rhythmStep player rs = .error e) : e ≠ "" := by
  cases rs with
  | conv m => simp [rhythmStep] at h
  | raw kvs =>
    unfold rhythmStep at h
    repeat' split at h
    all_goals first
      | (injection h; done)
      | (rename_i e2 heq
         injection h with h2
         subst h2
         exact jsonToSig_error_ne _ _ heq)

theorem okShape_unityOkOutput (p t r : ℝ) (tv : Bool) (dc : Option ℝ) :
    okShapeOut (unityOkOutput p t r tv dc) :=
  ⟨_, _, _, _, _, _, _, rfl⟩

/-- The boundary shape of `process_unity_message`: every call returns the
reset acknowledgment, a well-formed success result, or the zeroed `Miss`
failure result with a non-empty error string. -/
theorem unity_shape (inp : Except String Json) (refD : List (String × Json)) (st : PState)
    (hmsg : ∀ e, inp = .error e → e ≠ "") :
    (process_unity_message inp refD st).2 = resetObj ∨
    okShapeOut (process_unity_message inp refD st).2 ∨
    ∃ e, e ≠ "" ∧ (process_unity_message inp refD st).2 = failObj e := by
  cases inp with
  | error e =>
    exact Or.inr (Or.inr ⟨e, hmsg e rfl, rfl⟩)
  | ok raw =>
    by_cases hres : isResetMsg raw = true
    · rw [process_unity_message, if_pos hres]
      exact Or.inl rfl
    · rw [process_unity_message, if_neg hres]
      dsimp only
      cases hjm : json_to_motion_data raw with
      | error e =>
        exact Or.inr (Or.inr ⟨e, json_to_motion_data_error_ne _ _ hjm, rfl⟩)
      | ok player =>
        dsimp only
        cases hps : poseStep player (refSideOf refD) with
        | error e =>
          exact Or.inr (Or.inr ⟨e, poseStep_error_ne _ _ _ hps, rfl⟩)
        | ok pose =>
          dsimp only
          cases hpe : extract_dtw_feature player with
          | some pf =>
            cases hre : extractRef (refSideOf refD) with
            | some rf =>
              dsimp only
              cases hr : rhythmStep player (refSideOf refD) with
              | error e =>
                exact Or.inr (Or.inr ⟨e, rhythmStep_error_ne _ _ _ hr, rfl⟩)
              | ok rh =>
                right; left
                dsimp only
                exact okShape_unityOkOutput _ _ _ _ _
            | none =>
              dsimp only
              cases hr : rhythmStep player (refSideOf refD) with
              | error e =>
                exact Or.inr (Or.inr ⟨e, rhythmStep_error_ne _ _ _ hr, rfl⟩)
              | ok rh =>
                right; left
                dsimp only
                exact okShape_unityOkOutput _ _ _ _ _
          | none =>
            cases hre : extractRef (refSideOf refD) with
            | some rf =>
              dsimp only
              cases hr : rhythmStep player (refSideOf refD) with
              | error e =>
                exact Or.inr (Or.inr ⟨e, rhythmStep_error_ne _ _ _ hr, rfl⟩)
              | ok rh =>
                right; left
                dsimp only
                exact okShape_unityOkOutput _ _ _ _ _
            | none =>
              dsimp only
              cases hr : rhythmStep player (refSideOf refD) with
              | error e =>
                exact Or.inr (Or.inr ⟨e, rhythmStep_error_ne _ _ _ hr, rfl⟩)
              | ok rh =>
                right; left
                dsimp only
                exact okShape_unityOkOutput _ _ _ _ _

theorem mocopiPre_ne (e : String) : "process_mocopi_message failed: " ++ e ≠ "" :=
  string_append_ne_empty _ _ (by decide)

/-- The boundary shape of `process_mocopi_message`. -/
theorem mocopi_shape (pin rin : Except String Json) (st : PState) :
    (process_mocopi_message pin rin st).2 = resetObj ∨
    okShapeOut (process_mocopi_message pin rin st).2 ∨
    ∃ e, e ≠ "" ∧ (process_mocopi_message pin rin st).2 = failObj e := by
  cases pin with
  | error e =>
    exact Or.inr (Or.inr ⟨_, mocopiPre_ne e, rfl⟩)
  | ok praw =>
    cases rin with
    | error e =>
      exact Or.inr (Or.inr ⟨_, mocopiPre_ne e, rfl⟩)
    | ok rraw =>
      by_cases hres : (isCmdReset praw || isCmdReset rraw) = true
      · rw [process_mocopi_message, if_pos hres]
        exact Or.inl rfl
      · rw [process_mocopi_message, if_neg hres]
        dsimp only
        rcases hadapt : adapt_mocopi_frame praw st.histPlayer WINDOW_SIZE with ⟨hp', res⟩
        cases res with
        | error e =>
          exact Or.inr (Or.inr ⟨_, mocopiPre_ne e, rfl⟩)
        | ok pmsg =>
          dsimp only
          rcases hadapt2 : adapt_mocopi_frame rraw st.histRef WINDOW_SIZE with ⟨hr', res2⟩
          cases res2 with
          | error e =>
            exact Or.inr (Or.inr ⟨_, mocopiPre_ne e, rfl⟩)
          | ok rmsg =>
            exact unity_shape (.ok (.obj (scoringToKVs pmsg))) (scoringToKVs rmsg) _
              (fun e h => nomatch h)

/-- C1: neither entry point ever raises.  The direct entry
(`process_unity_message`), for every parse outcome of its input string
(including malformed JSON, whose JSONDecodeError message is non-empty) and
every reference dict and state, returns either the reset acknowledgment, a
well-formed success result, or the zeroed result with
`ok=false`, `final=pose=trajectory=rhythm=0.0`, grade `Miss` and a non-empty
error string; the raw-protocol entry (`process_mocopi_message`) satisfies
the same boundary contract unconditionally. -/
theorem C1_entry_never_raises :
    (∀ (inp : Except String Json) (refD : List (String × Json)) (st : PState),
      (∀ e, inp = .error e → e ≠ "") →
      (process_unity_message inp refD st).2 = resetObj ∨
      okShapeOut (process_unity_message inp refD st).2 ∨
      ∃ e, e ≠ "" ∧ (process_unity_message inp refD st).2 = failObj e) ∧
    (∀ (pin rin : Except String Json) (st : PState),
      (process_mocopi_message pin rin st).2 = resetObj ∨
      okShapeOut (process_mocopi_message pin rin st).2 ∨
      ∃ e, e ≠ "" ∧ (process_mocopi_message pin rin st).2 = failObj e) :=
  ⟨unity_shape, mocopi_shape⟩

/-- Witness for C1 at a malformed direct input and a malformed raw input. -/
theorem C1_witness :
    ((process_unity_message (.error "Expecting value: line 1 column 1 (char 0)") []
        initPState).2 = resetObj ∨
      okShapeOut (process_unity_message (.error "Expecting value: line 1 column 1 (char 0)")
        [] initPState).2 ∨
      ∃ e, e ≠ "" ∧ (process_unity_message (.error "Expecting value: line 1 column 1 (char 0)")
        [] initPState).2 = failObj e) ∧
    ((process_mocopi_message (.error "Expecting value: line 1 column 1 (char 0)") (.ok .null)
        initPState).2 = resetObj ∨
      okShapeOut (process_mocopi_message (.error "Expecting value: line 1 column 1 (char 0)")
        (.ok .null) initPState).2 ∨
      ∃ e, e ≠ "" ∧ (process_mocopi_message (.error "Expecting value: line 1 column 1 (char 0)")
        (.ok .null) initPState).2 = failObj e) := by
  constructor
  · exact C1_entry_never_raises.1 _ [] initPState
      (by intro e h; injection h with h2; subst h2; decide)
  · exact C1_entry_never_raises.2 _ _ initPState

/-- C2 counterexample: a reset command embedded in the reference input of
the direct-scoring entry does not short-circuit — the call scores normally
(result has `ok=true` and no `reset` field) and the non-empty session state
is left untouched, contradicting the claim that a reset request in either
input clears all state and returns the acknowledgment. -/
theorem C2_counterexample :
    (process_unity_message (.ok (.obj [])) c2refKVs c2state).1 = c2state ∧
    olookup (process_unity_message (.ok (.obj [])) c2refKVs c2state).2 "reset" = none ∧
    olookup (process_unity_message (.ok (.obj [])) c2refKVs c2state).2 "ok" =
      some (.bool true) ∧
    c2state ≠ reset_state c2state := by
  refine ⟨rfl, rfl, rfl, by decide⟩

/-- C2 (amended): on the direct entry a reset request in the player input
(explicit `reset` flag or `command == "reset"`) short-circuits; on the
raw-protocol entry a reset command (`command == "reset"`, the flag is not
checked there) in either input short-circuits.  In those cases all session
state (DTW alignment buffers and per-stream joint histories) is cleared and
`{ok:true, reset:true}` is returned with no scoring.  A reset request in the
reference input of the direct entry is not checked and does not short-circuit. -/
theorem C2_reset_amended :
    (∀ (raw : Json) (refD : List (String × Json)) (st : PState),
      isResetMsg raw = true →
      process_unity_message (.ok raw) refD st = (reset_state st, resetObj)) ∧
    (∀ (praw rraw : Json) (st : PState),
      (isCmdReset praw || isCmdReset rraw) = true →
      process_mocopi_message (.ok praw) (.ok rraw) st = (reset_state st, resetObj)) ∧
    (∀ st : PState,
      (reset_state st).dtw.player_buffer = [] ∧ (reset_state st).dtw.ref_buffer = [] ∧
      (reset_state st).histPlayer = [] ∧ (reset_state st).histRef = []) := by
  refine ⟨?_, ?_, ?_⟩
  · intro raw refD st h
    rw [process_unity_message, if_pos h]
  · intro praw rraw st h
    rw [process_mocopi_message, if_pos h]
  · intro st
    exact ⟨rfl, rfl, rfl, rfl⟩

/-- Witness for C2 at a concrete reset flag (direct entry) and a concrete
reset command (raw entry), from a non-trivial state. -/
theorem C2_witness :
    process_unity_message (.ok (.obj [("reset", .bool true)])) [] c2state =
      (reset_state c2state, resetObj) ∧
    process_mocopi_message (.ok (.obj [("command", .str "reset")])) (.ok (.obj []))
      c2state = (reset_state c2state, resetObj) := by
  constructor
  · exact C2_reset_amended.1 _ [] c2state rfl
  · exact C2_reset_amended.2.1 _ _ c2state rfl

/-- C6 (amended): in a direct-scoring call where feature extraction fails
for either stream, the trajectory-scorer buffers (indeed the whole session
state) are left exactly as before the call and no exception is raised; and
provided the pose and rhythm stages complete without an internal error, the
returned result has trajectory subscore exactly 0.5, trajectory_valid=false
and dtw_cost=null.  (If another stage raises first — see the counterexample
— the call instead returns the generic ok=false failure result, still
without raising and still leaving the buffers untouched.) -/
theorem C6_fallback_amended (raw : Json) (refD : List (String × Json)) (st : PState)
    (player : MotionData)
    (h0 : isResetMsg raw = false)
    (h1 : json_to_motion_data raw = .ok player)
    (h2 : extract_dtw_feature player = none ∨ extractRef (refSideOf refD) = none) :
    (process_unity_message (.ok raw) refD st).1 = st ∧
    (∀ pose rh, poseStep player (refSideOf refD) = .ok pose →
      rhythmStep player (refSideOf refD) = .ok rh →
      (process_unity_message (.ok raw) refD st).2 = unityOkOutput pose 0.5 rh false none ∧
      olookup (process_unity_message (.ok raw) refD st).2 "trajectory" =
        some (.num 0.5) ∧
      olookup (process_unity_message (.ok raw) refD st).2 "trajectory_valid" =
        some (.bool false) ∧
      olookup (process_unity_message (.ok raw) refD st).2 "dtw_cost" = some .null) := by
  rw [process_unity_message, if_neg (by rw [h0]; exact Bool.false_ne_true)]
  dsimp only
  rw [h1]
  dsimp only
  cases hps : poseStep player (refSideOf refD) with
  | error e =>
    refine ⟨rfl, ?_⟩
    intro pose rh hp _
    simp at hp
  | ok pose =>
    dsimp only
    cases hpe : extract_dtw_feature player with
    | some pf =>
      cases hre : extractRef (refSideOf refD) with
      | some rf =>
        exfalso
        rcases h2 with h2 | h2
        · rw [h2] at hpe
          exact absurd hpe (by simp)
        · rw [h2] at hre
          exact absurd hre (by simp)
      | none =>
        dsimp only
        cases hr : rhythmStep player (refSideOf refD) with
        | error e =>
          refine ⟨rfl, ?_⟩
          intro pose2 rh hp hrr
          simp at hrr
        | ok rh =>
          refine ⟨rfl, ?_⟩
          intro pose2 rh2 hp hrr
          injection hp with hp2
          injection hrr with hrr2
          subst hp2
          subst hrr2
          exact ⟨rfl, rfl, rfl, rfl⟩
    | none =>
      cases hre : extractRef (refSideOf refD) with
      | some rf =>
        dsimp only
        cases hr : rhythmStep player (refSideOf refD) with
        | error e =>
          refine ⟨rfl, ?_⟩
          intro pose2 rh hp hrr
          simp at hrr
        | ok rh =>
          refine ⟨rfl, ?_⟩
          intro pose2 rh2 hp hrr
          injection hp with hp2
          injection hrr with hrr2
          subst hp2
          subst hrr2
          exact ⟨rfl, rfl, rfl, rfl⟩
      | none =>
        dsimp only
        cases hr : rhythmStep player (refSideOf refD) with
        | error e =>
          refine ⟨rfl, ?_⟩
          intro pose2 rh hp hrr
          simp at hrr
        | ok rh =>
          refine ⟨rfl, ?_⟩
          intro pose2 rh2 hp hrr
          injection hp with hp2
          injection hrr with hrr2
          subst hp2
          subst hrr2
          exact ⟨rfl, rfl, rfl, rfl⟩

/-- Witness for C6: a player message with no trajectories against an empty
(converted) reference; extraction fails, the state is unchanged, and the
result carries the 0.5 / invalid / null trajectory fields. -/
theorem C6_witness :
    (process_unity_message (.ok (.obj [])) [] c2state).1 = c2state ∧
    olookup (process_unity_message (.ok (.obj [])) [] c2state).2 "trajectory" =
      some (.num 0.5) ∧
    olookup (process_unity_message (.ok (.obj [])) [] c2state).2 "trajectory_valid" =
      some (.bool false) ∧
    olookup (process_unity_message (.ok (.obj [])) [] c2state).2 "dtw_cost" =
      some .null := by
  have h := C6_fallback_amended (.obj []) [] c2state (json_to_motion_obj []) rfl rfl
    (Or.inl rfl)
  have h2 := h.2 _ _ rfl rfl
  exact ⟨h.1, h2.2.1, h2.2.2.1, h2.2.2.2⟩

/-- C6 counterexample: feature extraction fails for the player stream (no
LeftHand trajectory), yet the result does not carry the 0.5 fallback — a
malformed `Hips` rotation in the raw-format reference makes the pose stage
raise first, so the call returns the generic failure result: trajectory 0.0,
no `trajectory_valid` field, `ok=false` (the state is still untouched). -/
theorem C6_counterexample :
    extract_dtw_feature (json_to_motion_obj c6playerKVs) = none ∧
    (process_unity_message (.ok (.obj c6playerKVs)) c6refKVs c2state).1 = c2state ∧
    olookup (process_unity_message (.ok (.obj c6playerKVs)) c6refKVs c2state).2
      "trajectory" = some (.num 0) ∧
    olookup (process_unity_message (.ok (.obj c6playerKVs)) c6refKVs c2state).2
      "trajectory" ≠ some (.num 0.5) ∧
    olookup (process_unity_message (.ok (.obj c6playerKVs)) c6refKVs c2state).2
      "trajectory_valid" = none ∧
    olookup (process_unity_message (.ok (.obj c6playerKVs)) c6refKVs c2state).2 "ok" =
      some (.bool false) := by
  refine ⟨rfl, rfl, rfl, ?_, rfl, rfl⟩
  intro hc
  rw [show olookup (process_unity_message (.ok (.obj c6playerKVs)) c6refKVs c2state).2
      "trajectory" = some (.num 0) from rfl] at hc
  injection hc with hc2
  injection hc2 with hc3
  exact absurd hc3 (by norm_num)

/-- Witness for C7: decoding from an empty buffer raises, and an empty
`tran` payload raises. -/
theorem C7_witness :
    (∃ e, read_box [] 0 = .error e) ∧ (∃ e, parse_tran_payload [] = .error e) :=
  ⟨(C7_decode_errors.1 [] 0).mpr (Or.inl (by norm_num)),
   (C7_decode_errors.2.1 []).mpr (by norm_num)⟩
